import Mathlib

/-!
# Paravirtual protected-entity type manager: cross-cluster clone orchestration

A shallow embedding of `pkg/paravirt/paravirt_protected_entity_type_manager.go`
(and of the constants of `pkg/constants/constants.go` that it uses), followed by
theorems about the embedded functions.

Conventions of the embedding.

* A Go `string` is a sequence of bytes: `GoString := List Byte`, `Byte := Fin 256`.
* A Go `error` value is `Option GoError`; `none` is the `nil` error.
* A Go multi-value return `(a, b, err)` is a Lean tuple.
* A Go run-time panic is the `Outcome.panic` alternative of `Outcome`.
* The one recursive function, `decodeSnapshotID`, is given a bound on nested
  calls (structural recursion); `decodeSnapshotIDFuel_enough` shows that the
  bound is never used up.
* Calls that leave the process (Kubernetes API, random UUID source, protobuf
  (un)marshalling, bounded polls) are not computed: their replies are inputs of
  the embedded function, and the requests that are sent are recorded in a trace.
* Logging statements have no effect on results and are dropped.
* Where a statement is about object identity or about the objects a cluster
  holds, the state is passed explicitly: `CloneHeap` for the pointers of the
  status propagator, `GuestStore` for the volumes and claims of the guest
  cluster.
-/

namespace Paravirt

/-! ## Go strings -/

/-- A Go `byte`. -/
abbrev Byte := Fin 256

/-- A Go `string`: an immutable sequence of bytes. -/
abbrev GoString := List Byte

/-- The bytes of an ASCII string literal of the source. -/
def str (s : String) : GoString :=
  s.toList.map (fun c => (⟨c.toNat % 256, Nat.mod_lt _ (by decide)⟩ : Byte))

/-- The byte `':'`. -/
def colon : Byte := 58

/-- The byte `'\n'`. -/
def newline : Byte := 10

/-- The byte `'\r'`. -/
def carriageReturn : Byte := 13

/-! ## Go errors -/

/-- Go error values that the embedded functions can produce. Message texts are
kept as the format strings of the source; formatted arguments are left out. -/
inductive GoError where
  /-- The `base64.CorruptInputError` of `encoding/base64` (offset left out). -/
  | corruptInput : GoError
  /-- The astrolabe error "... is not a valid protected entity ID". -/
  | invalidPEID : GoString → GoError
  /-- An error created by `errors.Wrap` / `errors.Wrapf` around a cause. -/
  | wrapped : String → GoError → GoError
  /-- An error created by `fmt.Errorf` / `errors.Errorf`. -/
  | errorf : String → GoError
  /-- An error returned by a call to a cluster API or another external service. -/
  | external : String → GoError
  /-- A Kubernetes API error for which `apierrs.IsAlreadyExists` holds. -/
  | alreadyExists : GoError
  deriving DecidableEq, Repr

/-- The function `errors.Wrap` / `errors.Wrapf` of `github.com/pkg/errors`: it
annotates a non-nil error and returns `nil` when the error it is given is `nil`. -/
def errors.Wrap (err : Option GoError) (message : String) : Option GoError :=
  match err with
  | none => none
  | some e => some (GoError.wrapped message e)

/-- The predicate `apierrs.IsAlreadyExists` of `k8s.io/apimachinery`. -/
def apierrs.IsAlreadyExists (err : Option GoError) : Bool :=
  match err with
  | some GoError.alreadyExists => true
  | _ => false

/-- The result of running a Go function body: it panics or it returns. The
alternative `outOfFuel` belongs to the embedding only: it is the result of a
recursive function when the bound on nested calls that the embedding gives it is
used up. -/
inductive Outcome (α : Type) where
  | panic : String → Outcome α
  | outOfFuel : Outcome α
  | returned : α → Outcome α
  deriving DecidableEq, Repr

/-! ## `encoding/base64`, `RawStdEncoding` -/

/-- The alphabet `encodeStd` of `encoding/base64`. -/
def encodeStd : GoString :=
  str "ABCDEFGHIJKLMNOPQRSTUVWXYZabcdefghijklmnopqrstuvwxyz0123456789+/"

/-- The encoding table: the byte for a 6-bit value. -/
def encodeMap (v : Nat) : Byte := encodeStd.getD v 0

/-- The table `decodeMap`: the 6-bit value of an alphabet byte, `none` (0xff in
Go) for every other byte. -/
def decodeMap (c : Byte) : Option Nat :=
  let i := encodeStd.indexOf c
  if i < 64 then some i else none

/-- The function `base64.RawStdEncoding.EncodeToString`: three bytes become four
alphabet bytes, a final group of one or two bytes becomes two or three alphabet
bytes, and no padding is written. -/
def EncodeToString : List Byte → GoString
  | a :: b :: c :: rest =>
      encodeMap (a.val / 4) :: encodeMap (a.val % 4 * 16 + b.val / 16) ::
        encodeMap (b.val % 16 * 4 + c.val / 64) :: encodeMap (c.val % 64) ::
        EncodeToString rest
  | [a, b] =>
      [encodeMap (a.val / 4), encodeMap (a.val % 4 * 16 + b.val / 16),
        encodeMap (b.val % 16 * 4)]
  | [a] => [encodeMap (a.val / 4), encodeMap (a.val % 4 * 16)]
  | [] => []

/-- The byte made of the low eight bits of `n` (Go's conversion `byte(n)`). -/
def toByte (n : Nat) : Byte := ⟨n % 256, Nat.mod_lt _ (by decide)⟩

/-- The quantum decoding of `encoding/base64` on input without line breaks: four
alphabet bytes give three bytes; a final group of two or three alphabet bytes
gives one or two bytes (non-strict mode: the unused low bits are dropped); a
final group of one byte, and any byte outside the alphabet (the padding byte
`'='` included, as the raw encoding has no padding), is a corrupt input. -/
def decodeQuanta : List Byte → Option (List Byte)
  | c0 :: c1 :: c2 :: c3 :: rest =>
      match decodeMap c0, decodeMap c1, decodeMap c2, decodeMap c3, decodeQuanta rest with
      | some s0, some s1, some s2, some s3, some out =>
          some (toByte (s0 * 4 + s1 / 16) :: toByte (s1 % 16 * 16 + s2 / 4) ::
            toByte (s2 % 4 * 64 + s3) :: out)
      | _, _, _, _, _ => none
  | [c0, c1, c2] =>
      match decodeMap c0, decodeMap c1, decodeMap c2 with
      | some s0, some s1, some s2 =>
          some [toByte (s0 * 4 + s1 / 16), toByte (s1 % 16 * 16 + s2 / 4)]
      | _, _, _ => none
  | [c0, c1] =>
      match decodeMap c0, decodeMap c1 with
      | some s0, some s1 => some [toByte (s0 * 4 + s1 / 16)]
      | _, _ => none
  | [_] => none
  | [] => some []

/-- The function `base64.RawStdEncoding.DecodeString`, as used by the source
(the bytes are looked at only when the error is `nil`): `'\r'` and `'\n'` are
skipped wherever they stand, and the rest is decoded quantum by quantum.
`none` is the `CorruptInputError`. -/
def DecodeString (s : GoString) : Option (List Byte) :=
  decodeQuanta (s.filter (fun c => c != newline && c != carriageReturn))

/-! ## `strings.Split` -/

/-- The first component of a string cut at each separator byte, and the list of
the components that follow it. -/
def splitParts (sep : Byte) : List Byte → GoString × List GoString
  | [] => ([], [])
  | c :: cs =>
      if c = sep then ([], (splitParts sep cs).1 :: (splitParts sep cs).2)
      else (c :: (splitParts sep cs).1, (splitParts sep cs).2)

/-- The function `strings.Split(s, sep)` for a one-byte separator: the
substrings between the separators; a string without separator (the empty
string included) gives the one-element slice holding that string. -/
def strings.Split (s : GoString) (sep : Byte) : List GoString :=
  (splitParts sep s).1 :: (splitParts sep s).2

/-! ## `astrolabe.ProtectedEntityID`

The identifier types belong to the astrolabe library
(`github.com/vmware-tanzu/astrolabe/pkg/astrolabe`), which the plugin imports.
Their string format is the one of the identifier wire format:
`<peType>:<id>`, followed by `:<snapshotID>` when a snapshot id is present. -/

/-- The type `astrolabe.ProtectedEntitySnapshotID`: a wrapper of one string. -/
structure ProtectedEntitySnapshotID where
  id : GoString
  deriving DecidableEq, Repr

/-- The type `astrolabe.ProtectedEntityID`. The zero value of `snapshotID`
(empty string) means that the identifier carries no snapshot id. -/
structure ProtectedEntityID where
  peType : GoString
  id : GoString
  snapshotID : ProtectedEntitySnapshotID
  deriving DecidableEq, Repr

/-- The constructor `astrolabe.NewProtectedEntitySnapshotID`. -/
def NewProtectedEntitySnapshotID (pesiString : GoString) : ProtectedEntitySnapshotID :=
  { id := pesiString }

/-- The method `ProtectedEntitySnapshotID.String`. -/
def ProtectedEntitySnapshotID.String (this : ProtectedEntitySnapshotID) : GoString :=
  this.id

/-- The method `ProtectedEntityID.GetPeType`. -/
def ProtectedEntityID.GetPeType (this : ProtectedEntityID) : GoString := this.peType

/-- The method `ProtectedEntityID.GetSnapshotID`. -/
def ProtectedEntityID.GetSnapshotID (this : ProtectedEntityID) : ProtectedEntitySnapshotID :=
  this.snapshotID

/-- The method `ProtectedEntityID.HasSnapshot`: the snapshot id is not empty. -/
def ProtectedEntityID.HasSnapshot (this : ProtectedEntityID) : Bool :=
  this.snapshotID.id != []

/-- The method `ProtectedEntityID.String`, the canonical string form:
`peType + ":" + id`, followed by `":" + snapshotID` when the snapshot id is not
the zero value. -/
def ProtectedEntityID.String (this : ProtectedEntityID) : GoString :=
  let returnString := this.peType ++ [colon] ++ this.id
  if this.snapshotID != { id := [] } then
    returnString ++ [colon] ++ this.snapshotID.String
  else returnString

/-- The constructor `astrolabe.NewProtectedEntityIDFromString`: the string is
split at every `':'`; with more than one component the first two are the type
and the id, and the third is the snapshot id when there are exactly three
components; with one component the string is not a valid identifier. -/
def NewProtectedEntityIDFromString (peiString : GoString) :
    ProtectedEntityID × Option GoError :=
  match strings.Split peiString colon with
  | [peType, id, snap] =>
      ({ peType := peType, id := id, snapshotID := NewProtectedEntitySnapshotID snap }, none)
  | peType :: id :: _ =>
      ({ peType := peType, id := id, snapshotID := { id := [] } }, none)
  | _ =>
      ({ peType := [], id := [], snapshotID := { id := [] } },
        some (GoError.invalidPEID peiString))

/-! ## Identifier codec: `decodeSnapshotID`, `convertSnapshotID` -/

/-- The function `decodeSnapshotID` with an explicit bound on the number of
nested calls: `Outcome.outOfFuel` when the bound is used up, otherwise the
returned pair `(string, error)`. -/
def decodeSnapshotIDFuel :
    Nat → ProtectedEntitySnapshotID → Outcome (GoString × Option GoError)
  | 0, _ => Outcome.outOfFuel
  | fuel + 1, snapshotID =>
      let snapshotID64Str := snapshotID.String
      match DecodeString snapshotID64Str with
      | none =>
          Outcome.returned ([], errors.Wrap (some GoError.corruptInput)
            "Could not decode snapshot ID encoded string")
      | some snapshotIDBytes =>
          match NewProtectedEntityIDFromString snapshotIDBytes with
          | (_, some err) =>
              Outcome.returned ([], errors.Wrap (some err)
                "Could not translate decoded snapshotID into pe-id")
          | (decodedPEID, none) =>
              if decodedPEID.HasSnapshot && decodedPEID.GetPeType != str "ivd" then
                decodeSnapshotIDFuel fuel decodedPEID.GetSnapshotID
              else
                Outcome.returned (EncodeToString decodedPEID.String, none)

/-- The function `decodeSnapshotID`. The source recurses without a counter; the
embedding gives the recursion one call per byte of the input plus one. -/
def decodeSnapshotID (snapshotID : ProtectedEntitySnapshotID) :
    Outcome (GoString × Option GoError) :=
  decodeSnapshotIDFuel (snapshotID.String.length + 1) snapshotID

/-- The number of calls of `base64.RawStdEncoding.DecodeString` (decode rounds)
made by `decodeSnapshotID`: the control flow of `decodeSnapshotIDFuel`, counting
one for each call of the function; `none` when the bound is used up. -/
def decodeRoundsFuel : Nat → ProtectedEntitySnapshotID → Option Nat
  | 0, _ => none
  | fuel + 1, snapshotID =>
      match DecodeString snapshotID.String with
      | none => some 1
      | some snapshotIDBytes =>
          match NewProtectedEntityIDFromString snapshotIDBytes with
          | (_, some _) => some 1
          | (decodedPEID, none) =>
              if decodedPEID.HasSnapshot && decodedPEID.GetPeType != str "ivd" then
                (decodeRoundsFuel fuel decodedPEID.GetSnapshotID).map (· + 1)
              else some 1

/-- The number of decode rounds of `decodeSnapshotID` on an input. -/
def decodeRounds (snapshotID : ProtectedEntitySnapshotID) : Option Nat :=
  decodeRoundsFuel (snapshotID.String.length + 1) snapshotID

/-- The method `convertSnapshotID`: the snapshot id of the source identifier is
decoded down to the `ivd` identifier and the result is put behind
`"pvc:" + svcPVCNamespace + "/" + svcPVCName + ":"`. -/
def convertSnapshotID (sourceSnapshotID : ProtectedEntityID) (svcPVCNamespace : GoString)
    (svcPVCName : GoString) : Outcome (GoString × Option GoError) :=
  match decodeSnapshotID sourceSnapshotID.GetSnapshotID with
  | Outcome.panic m => Outcome.panic m
  | Outcome.outOfFuel => Outcome.outOfFuel
  | Outcome.returned (snapIDDecoded, err) =>
      if err ≠ none then
        Outcome.returned ([], errors.Wrap err "failed to retrieve decoded snapshot id")
      else
        let newSnapshotID :=
          str "pvc:" ++ svcPVCNamespace ++ str "/" ++ svcPVCName ++ str ":" ++ snapIDDecoded
        Outcome.returned (newSnapshotID, none)

/-! ## Go maps -/

/-- A Go `map[string]string`, as the list of its entries in iteration order. -/
abbrev GoMap := List (GoString × GoString)

/-- The map read `m[k]` with its presence flag. -/
def GoMap.get (m : GoMap) (k : GoString) : Option GoString :=
  match m with
  | [] => none
  | (k', v) :: rest => if k' = k then some v else GoMap.get rest k

/-- The map write `m[k] = v`. -/
def GoMap.set (m : GoMap) (k v : GoString) : GoMap :=
  match m with
  | [] => [(k, v)]
  | (k', v') :: rest => if k' = k then (k, v) :: rest else (k', v') :: GoMap.set rest k v

/-- The built-in `delete(m, k)`. -/
def GoMap.delete (m : GoMap) (k : GoString) : GoMap :=
  match m with
  | [] => []
  | (k', v) :: rest => if k' = k then GoMap.delete rest k else (k', v) :: GoMap.delete rest k

/-- The loop
`for k, v := range src { dst[k] = v; delete(src, k) }`
over the entries `todo` that the iteration has not produced yet: an entry that
was deleted before it is reached is not produced. The result is the pair of the
source map and the destination map after the loop. -/
def moveLabels : List (GoString × GoString) → GoMap → GoMap → GoMap × GoMap
  | [], src, dst => (src, dst)
  | (k, v) :: todo, src, dst =>
      if (src.get k).isSome then moveLabels todo (src.delete k) (dst.set k v)
      else moveLabels todo src dst

/-! ## Kubernetes objects

Of the Kubernetes API types the fields that the source reads or writes are
kept, and a few more that it leaves alone. -/

/-- The type `v1.ResourceList`: quantities by resource name. -/
abbrev ResourceList := List (GoString × GoString)

/-- The type `v1.ResourceRequirements`. -/
structure ResourceRequirements where
  Limits : ResourceList
  Requests : ResourceList
  deriving DecidableEq, Repr

/-- The type `v1.PersistentVolumeClaimSpec`. -/
structure PersistentVolumeClaimSpec where
  AccessModes : List GoString
  Resources : ResourceRequirements
  VolumeName : GoString
  StorageClassName : Option GoString
  VolumeMode : Option GoString
  deriving DecidableEq, Repr

/-- The type `v1.PersistentVolumeClaimStatus`. -/
structure PersistentVolumeClaimStatus where
  Phase : GoString
  Capacity : ResourceList
  deriving DecidableEq, Repr

/-- The type `v1.PersistentVolumeClaim`; the fields of the embedded
`metav1.ObjectMeta` are `Name`, `Namespace`, `Labels`, `Annotations`. -/
structure PersistentVolumeClaim where
  Name : GoString
  Namespace : GoString
  Labels : GoMap
  Annotations : GoMap
  Spec : PersistentVolumeClaimSpec
  Status : PersistentVolumeClaimStatus
  deriving DecidableEq, Repr

/-- The type `v1.CSIPersistentVolumeSource`. -/
structure CSIPersistentVolumeSource where
  Driver : GoString
  VolumeHandle : GoString
  deriving DecidableEq, Repr

/-- The type `v1.ObjectReference`. -/
structure ObjectReference where
  Namespace : GoString
  Name : GoString
  deriving DecidableEq, Repr

/-- The type `v1.PersistentVolumeSpec`. -/
structure PersistentVolumeSpec where
  AccessModes : List GoString
  Capacity : ResourceList
  CSI : Option CSIPersistentVolumeSource
  ClaimRef : Option ObjectReference
  deriving DecidableEq, Repr

/-- The type `v1.PersistentVolume`. -/
structure PersistentVolume where
  Name : GoString
  Spec : PersistentVolumeSpec
  deriving DecidableEq, Repr

/-- The constant `CSIDriverName`. -/
def CSIDriverName : GoString := str "csi.vsphere.vmware.com"

/-- The constant `constants.WithoutBackupRepository`. -/
def WithoutBackupRepository : GoString := str "without-backup-repository"

/-! ## Clone requests -/

/-- Modelled from the spec: the type `backupdriverv1.ClonePhase` is declared in
`pkg/apis/backupdriver/v1alpha1`, which is not among the source files. The
phases are those of the data model of the specification,
`enum{Pending, InProgress, Completed, Failed, Canceled}`. -/
inductive ClonePhase where
  | Pending
  | InProgress
  | Completed
  | Failed
  | Canceled
  deriving DecidableEq, Repr

/-- The type `v1.TypedLocalObjectReference`. -/
structure TypedLocalObjectReference where
  APIGroup : Option GoString
  Kind : GoString
  Name : GoString
  deriving DecidableEq, Repr

/-- Modelled from the spec: the specification part of a `CloneFromSnapshot`
object (declared in `pkg/apis/backupdriver/v1alpha1`, not among the source
files), with the fields the data model of the specification lists for a
CloneRequest. -/
structure CloneFromSnapshotSpec where
  SnapshotID : GoString
  Metadata : List Byte
  APIGroup : Option GoString
  Kind : GoString
  BackupRepository : GoString
  deriving DecidableEq, Repr

/-- Modelled from the spec: the status part of a `CloneFromSnapshot` object
(declared in `pkg/apis/backupdriver/v1alpha1`, not among the source files):
phase, message and resource handle. -/
structure CloneFromSnapshotStatus where
  Phase : ClonePhase
  Message : GoString
  ResourceHandle : Option TypedLocalObjectReference
  deriving DecidableEq, Repr

/-- Modelled from the spec: the type `backupdriverv1.CloneFromSnapshot`
(declared in `pkg/apis/backupdriver/v1alpha1`, not among the source files):
namespace and name, specification and status. -/
structure CloneFromSnapshot where
  Namespace : GoString
  Name : GoString
  Spec : CloneFromSnapshotSpec
  Status : CloneFromSnapshotStatus
  deriving DecidableEq, Repr

/-- The arguments of `snapshotUtils.CloneFromSnapshopRef` that the caller
chooses: the snapshot id, the marshalled claim, API group and kind, the
namespace, the backup repository name and the phases to wait for. -/
structure CloneFromSnapshotRequest where
  snapshotID : GoString
  metadata : List Byte
  apiGroup : GoString
  kind : GoString
  svcNamespace : GoString
  backupRepositoryName : GoString
  waitForPhases : List ClonePhase
  deriving DecidableEq, Repr

/-- The type `astrolabe.ProtectedEntity`, as far as the source is concerned: the
entity built by `newParaVirtProtectedEntity` for an identifier. -/
structure ProtectedEntity where
  id : ProtectedEntityID
  deriving DecidableEq, Repr

/-! ## Calls that leave the process -/

/-- The calls that the type manager issues to the guest cluster, to the
supervisor cluster and to the helpers that talk to them. -/
inductive Call where
  /-- The call `backuprepository.GetBackupRepositoryFromBackupRepositoryName`. -/
  | getBackupRepository : GoString → Call
  /-- The call `snapshotUtils.CloneFromSnapshopRef` (create and wait). -/
  | cloneFromSnapshotRef : CloneFromSnapshotRequest → Call
  /-- The call `svcKubeClientSet...PersistentVolumeClaims(ns).Get(name)`. -/
  | svcGetPVC : GoString → GoString → Call
  /-- The call `gcKubeClientSet...PersistentVolumes().Create(pv)`. -/
  | gcCreatePV : PersistentVolume → Call
  /-- The call `gcKubeClientSet...PersistentVolumeClaims(ns).Create(pvc)`. -/
  | gcCreatePVC : GoString → PersistentVolumeClaim → Call
  /-- The call `astrolabe_pvc.WaitForPersistentVolumeClaimPhase(ClaimBound, ns, name)`. -/
  | gcWaitForClaimBound : GoString → GoString → Call
  /-- The call `gcBackupDriverClient.CloneFromSnapshots(ns).Get(name)`. -/
  | gcGetClone : GoString → GoString → Call
  /-- The call `gcBackupDriverClient.CloneFromSnapshots(ns).UpdateStatus(clone)`. -/
  | gcUpdateCloneStatus : GoString → CloneFromSnapshot → Call
  /-- The call `newParaVirtProtectedEntity` made by `GetProtectedEntity`. -/
  | newProtectedEntity : ProtectedEntityID → Call
  deriving DecidableEq, Repr

/-- The replies of everything that the source does not compute itself. The
typed Kubernetes clients return a non-nil object pointer together with the error
(the zero object when the call failed), hence the pairs. -/
structure External where
  /-- The field `SvcBackupRepositoryName` of the looked-up repository, and the error. -/
  GetBackupRepositoryFromBackupRepositoryName : GoString → GoString × Option GoError
  /-- The method `svcPVC.Unmarshal(metadata)` on a zero claim: the filled claim. -/
  Unmarshal : List Byte → PersistentVolumeClaim × Option GoError
  /-- The draw `uuid.NewRandom()` of `getSuperPVCandGuestPVCName`, as its string. -/
  pvcUUID : GoString × Option GoError
  /-- The draw `uuid.NewRandom()` of `createGuestPV`, as its string. -/
  pvUUID : GoString × Option GoError
  /-- The method `svcPVC.Marshal()`. -/
  Marshal : PersistentVolumeClaim → List Byte × Option GoError
  /-- The helper `snapshotUtils.CloneFromSnapshopRef`. -/
  CloneFromSnapshopRef : CloneFromSnapshotRequest → CloneFromSnapshot × Option GoError
  /-- The supervisor-cluster `PersistentVolumeClaims(ns).Get(name)`. -/
  svcGetPVC : GoString → GoString → PersistentVolumeClaim × Option GoError
  /-- The guest-cluster `PersistentVolumes().Create(pv)`. -/
  gcCreatePV : PersistentVolume → PersistentVolume × Option GoError
  /-- The guest-cluster `PersistentVolumeClaims(ns).Create(pvc)`. -/
  gcCreatePVC : GoString → PersistentVolumeClaim → PersistentVolumeClaim × Option GoError
  /-- The bounded poll `WaitForPersistentVolumeClaimPhase` for `ClaimBound`. -/
  WaitForPersistentVolumeClaimPhase : GoString → GoString → Option GoError
  /-- The guest-cluster `CloneFromSnapshots(ns).Get(name)`. -/
  gcGetClone : GoString → GoString → CloneFromSnapshot × Option GoError
  /-- The guest-cluster `CloneFromSnapshots(ns).UpdateStatus(clone)`. -/
  gcUpdateCloneStatus : GoString → CloneFromSnapshot → CloneFromSnapshot × Option GoError
  /-- The constructor `newParaVirtProtectedEntity`. -/
  newParaVirtProtectedEntity : ProtectedEntityID → Option ProtectedEntity × Option GoError

/-- The type `ParaVirtProtectedEntityTypeManager`: the supervisor namespace it
runs in and the replies of its clients. -/
structure ParaVirtProtectedEntityTypeManager where
  svcNamespace : GoString
  ext : External

/-! ## Volume translator: `getSuperPVCandGuestPVCName` -/

set_option synthInstance.maxSize 512 in
/-- Equality of the values returned by `getSuperPVCandGuestPVCName` is decidable. -/
instance translatedDecidableEq :
    DecidableEq (Option PersistentVolumeClaim × GoString × GoString × GoMap × Option GoError) :=
  inferInstance

/-- The method `getSuperPVCandGuestPVCName`. The slice expression
`svcPVC.Name[0:4]` panics when the name has fewer than four bytes. In the branch
for a missing storage class the source wraps the variable `err`, which at that
point holds the `nil` error of `uuid.NewRandom()`. -/
def getSuperPVCandGuestPVCName (this : ParaVirtProtectedEntityTypeManager)
    (metadata : List Byte) :
    Outcome (Option PersistentVolumeClaim × GoString × GoString × GoMap × Option GoError) :=
  let svcPVC := (this.ext.Unmarshal metadata).1
  let err := (this.ext.Unmarshal metadata).2
  if err ≠ none then
    Outcome.returned (none, [], [], [],
      errors.Wrap err "failed to unmarshal metadata to get PVC")
  else
    let pvcUUID := this.ext.pvcUUID.1
    let err := this.ext.pvcUUID.2
    if err ≠ none then
      Outcome.returned (none, [], [], [],
        errors.Wrap err "could not generate PVC name in the Supervisor Cluster for Guest Cluster PVC")
    else
      let gcPVCName := svcPVC.Name
      let gcPVCNamespace := svcPVC.Namespace
      let moved := moveLabels svcPVC.Labels svcPVC.Labels []
      let gcPVCLabel := moved.2
      let svcPVC := { svcPVC with Labels := moved.1 }
      if svcPVC.Name.length < 4 then
        Outcome.panic "slice bounds out of range"
      else
        let svcPVC := { svcPVC with Name := svcPVC.Name.take 4 ++ str "-" ++ pvcUUID }
        let svcPVC := { svcPVC with Namespace := this.svcNamespace }
        match svcPVC.Spec.StorageClassName with
        | some _ =>
            Outcome.returned (some svcPVC, gcPVCNamespace, gcPVCName, gcPVCLabel, none)
        | none =>
            Outcome.returned (none, [], [], [],
              errors.Wrap err "failed to restore PVC in Supervisor Cluster because StorageClassName is not set")

/-! ## Guest volume materializer: `createGuestPV`, `createGuestPVC` -/

/-- The method `createGuestPV`: the calls it issues and the pair it returns.
The result of `Create` is assigned to `gcPV` and to `err`; `err` is reset to
`nil` when it is `nil` or an `AlreadyExists` error (the value `_err` below), and
the function returns `gcPV, nil` in every case, without looking at `err`. -/
def createGuestPV (this : ParaVirtProtectedEntityTypeManager) (gcPVCNamespace : GoString)
    (gcPVCName : GoString) (svcPVC : PersistentVolumeClaim) (CSIDriverName : GoString) :
    List Call × (Option PersistentVolume × Option GoError) :=
  let pvUUID := this.ext.pvUUID.1
  let err := this.ext.pvUUID.2
  if err ≠ none then
    ([], (none, errors.Wrap err
      "could not generate PV name in the Guest Cluster for Supervisor Cluster PVC"))
  else
    let gcPV : PersistentVolume :=
      { Name := str "pvc-" ++ pvUUID
        Spec :=
          { AccessModes := svcPVC.Spec.AccessModes
            Capacity := svcPVC.Status.Capacity
            CSI := some { Driver := CSIDriverName, VolumeHandle := svcPVC.Name }
            ClaimRef := some { Namespace := gcPVCNamespace, Name := gcPVCName } } }
    let created := this.ext.gcCreatePV gcPV
    let err := created.2
    let _err := if err = none ∨ apierrs.IsAlreadyExists err then none else err
    ([Call.gcCreatePV gcPV], (some created.1, none))

/-- The method `createGuestPVC`: the calls it issues and the pair it returns.
The result of `Create` is bound to variables that live in the `if` statement
only, so the claim that is waited for and returned is the one built here. -/
def createGuestPVC (this : ParaVirtProtectedEntityTypeManager) (gcPVCNamespace : GoString)
    (gcPVCName : GoString) (gcPVCLabels : GoMap) (gcPVName : GoString)
    (svcPVC : PersistentVolumeClaim) :
    List Call × (Option PersistentVolumeClaim × Option GoError) :=
  let accessModes := svcPVC.Spec.AccessModes
  let resources := svcPVC.Spec.Resources
  let volumeMode := svcPVC.Spec.VolumeMode
  let gcPVC : PersistentVolumeClaim :=
    { Name := gcPVCName
      Namespace := gcPVCNamespace
      Labels := gcPVCLabels
      Annotations := []
      Spec :=
        { AccessModes := accessModes
          Resources := resources
          VolumeMode := volumeMode
          VolumeName := gcPVName
          StorageClassName := none }
      Status := { Phase := [], Capacity := [] } }
  let calls :=
    [Call.gcCreatePVC gcPVCNamespace gcPVC,
      Call.gcWaitForClaimBound gcPVC.Namespace gcPVC.Name]
  let err := this.ext.WaitForPersistentVolumeClaimPhase gcPVC.Namespace gcPVC.Name
  if err ≠ none then
    (calls, (none, some (GoError.errorf "pvc did not become Bound")))
  else
    (calls, (some gcPVC, none))

/-! ## Status propagator: `updateCloneFromSnapshotStatus` -/

/-- The method `updateCloneFromSnapshotStatus`: the calls it issues and the
error it returns. The fetched object is copied (`DeepCopy`), and phase, message
and resource handle of the supervisor-side object are written on the copy. -/
def updateCloneFromSnapshotStatus (this : ParaVirtProtectedEntityTypeManager)
    (cloneFromSnapshotNamespace : GoString) (cloneFromSnapshotName : GoString)
    (svcClone : CloneFromSnapshot) : List Call × Option GoError :=
  let gcClone := (this.ext.gcGetClone cloneFromSnapshotNamespace cloneFromSnapshotName).1
  let err := (this.ext.gcGetClone cloneFromSnapshotNamespace cloneFromSnapshotName).2
  let calls := [Call.gcGetClone cloneFromSnapshotNamespace cloneFromSnapshotName]
  if err ≠ none then
    (calls, errors.Wrap err "failed to get cloneFromSnapshot record in Guest Cluster")
  else
    let clone := gcClone
    let clone := { clone with Status := { clone.Status with Phase := svcClone.Status.Phase } }
    let clone := { clone with Status := { clone.Status with Message := svcClone.Status.Message } }
    let clone :=
      { clone with Status := { clone.Status with ResourceHandle := svcClone.Status.ResourceHandle } }
    let err := (this.ext.gcUpdateCloneStatus cloneFromSnapshotNamespace clone).2
    let calls := calls ++ [Call.gcUpdateCloneStatus cloneFromSnapshotNamespace clone]
    if err ≠ none then (calls, err) else (calls, none)

/-! ## Orchestration: `CreateFromMetadata` -/

/-- The method `GetProtectedEntity`. -/
def GetProtectedEntity (this : ParaVirtProtectedEntityTypeManager) (id : ProtectedEntityID) :
    List Call × (Option ProtectedEntity × Option GoError) :=
  let retPE := (this.ext.newParaVirtProtectedEntity id).1
  let err := (this.ext.newParaVirtProtectedEntity id).2
  if err ≠ none then ([Call.newProtectedEntity id], (none, err))
  else ([Call.newProtectedEntity id], (retPE, none))

/-- The function `astrolabe_pvc.NewProtectedEntityIDFromPVCName` of the astrolabe
library: the identifier `pvc:<namespace>/<name>`. -/
def NewProtectedEntityIDFromPVCName (namespaceName : GoString) (name : GoString) :
    ProtectedEntityID :=
  { peType := str "pvc", id := namespaceName ++ str "/" ++ name, snapshotID := { id := [] } }

/-- Lines 190 to 203 of `CreateFromMetadata`: the backup repository name that is
used for the clone request. The lookup is made only for a name that is neither
empty nor the sentinel; its reply replaces the name when it is itself neither
empty nor the sentinel. The result is the calls issued, and either the error
that ends `CreateFromMetadata` or the name. -/
def resolveBackupRepositoryName (this : ParaVirtProtectedEntityTypeManager)
    (backupRepositoryName : GoString) : List Call × (Option GoError × GoString) :=
  if backupRepositoryName ≠ [] ∧ backupRepositoryName ≠ WithoutBackupRepository then
    let svcBackupRepositoryName :=
      (this.ext.GetBackupRepositoryFromBackupRepositoryName backupRepositoryName).1
    let err := (this.ext.GetBackupRepositoryFromBackupRepositoryName backupRepositoryName).2
    let calls := [Call.getBackupRepository backupRepositoryName]
    if err ≠ none then
      (calls, (errors.Wrap err "failed to retrieve backupRepository", backupRepositoryName))
    else if svcBackupRepositoryName ≠ [] ∧ svcBackupRepositoryName ≠ WithoutBackupRepository then
      (calls, (none, svcBackupRepositoryName))
    else (calls, (none, backupRepositoryName))
  else ([], (none, backupRepositoryName))

/-- Lines 249 to 282 of `CreateFromMetadata`, entered when the clone request
returned without error in a phase that is neither `Failed` nor `Canceled`: the
supervisor claim is fetched again, the guest volume and the guest claim are
created, the status is mirrored and the protected entity is returned. -/
def materializeAndReport (this : ParaVirtProtectedEntityTypeManager)
    (svcPVCName : GoString) (gcPVCNamespace : GoString) (gcPVCName : GoString)
    (gcPVCLabels : GoMap) (cloneFromSnapshotNamespace : GoString)
    (cloneFromSnapshotName : GoString) (svcClone : CloneFromSnapshot) :
    List Call × Outcome (Option ProtectedEntity × Option GoError) :=
  let svcPvcUpdated := (this.ext.svcGetPVC this.svcNamespace svcPVCName).1
  let err := (this.ext.svcGetPVC this.svcNamespace svcPVCName).2
  let calls := [Call.svcGetPVC this.svcNamespace svcPVCName]
  if err ≠ none then
    (calls, Outcome.returned (none, errors.Wrap err "Failed to get PVC from Supervisor Cluster"))
  else
    let svcPVC := svcPvcUpdated
    let pv := createGuestPV this gcPVCNamespace gcPVCName svcPVC CSIDriverName
    let calls := calls ++ pv.1
    match pv.2 with
    | (_, some err) => (calls, Outcome.returned (none, some err))
    | (none, none) => (calls, Outcome.panic "nil pointer dereference")
    | (some gcPV, none) =>
        let pvc := createGuestPVC this gcPVCNamespace gcPVCName gcPVCLabels gcPV.Name svcPVC
        let calls := calls ++ pvc.1
        match pvc.2 with
        | (_, some err) => (calls, Outcome.returned (none, some err))
        | (none, none) => (calls, Outcome.panic "nil pointer dereference")
        | (some gcPVC, none) =>
            let upd := updateCloneFromSnapshotStatus this cloneFromSnapshotNamespace
              cloneFromSnapshotName svcClone
            let calls := calls ++ upd.1
            match upd.2 with
            | some err => (calls, Outcome.returned (none, some err))
            | none =>
                let peID := NewProtectedEntityIDFromPVCName gcPVC.Namespace gcPVC.Name
                let got := GetProtectedEntity this peID
                let calls := calls ++ got.1
                match got.2 with
                | (_, some err) => (calls, Outcome.returned (none, some err))
                | (pe, none) => (calls, Outcome.returned (pe, none))

/-- The arguments of the call of `snapshotUtils.CloneFromSnapshopRef` at line 233
of `CreateFromMetadata`: the converted snapshot id, the marshalled supervisor
claim, API group and kind, the supervisor namespace, the backup repository name,
and the phases `Completed`, `Failed`, `Canceled` to wait for. -/
def cloneRequest (this : ParaVirtProtectedEntityTypeManager) (newSnapshotID : GoString)
    (svcPVCData : List Byte) (apiGroup : GoString) (kind : GoString)
    (backupRepositoryName : GoString) : CloneFromSnapshotRequest :=
  { snapshotID := newSnapshotID
    metadata := svcPVCData
    apiGroup := apiGroup
    kind := kind
    svcNamespace := this.svcNamespace
    backupRepositoryName := backupRepositoryName
    waitForPhases := [ClonePhase.Completed, ClonePhase.Failed, ClonePhase.Canceled] }

/-- The method `CreateFromMetadata`: the calls it issues, in order, and its
outcome. Dereferencing the claim pointer returned by
`getSuperPVCandGuestPVCName` panics when that pointer is `nil`. -/
def CreateFromMetadata (this : ParaVirtProtectedEntityTypeManager) (metadata : List Byte)
    (sourceSnapshotID : ProtectedEntityID) (cloneFromSnapshotNamespace : GoString)
    (cloneFromSnapshotName : GoString) (backupRepositoryName : GoString) :
    List Call × Outcome (Option ProtectedEntity × Option GoError) :=
  let repo := resolveBackupRepositoryName this backupRepositoryName
  let calls := repo.1
  match repo.2 with
  | (some err, _) => (calls, Outcome.returned (none, some err))
  | (none, backupRepositoryName) =>
      let apiGroup : GoString := []
      let kind := str "PersistentVolumeClaim"
      match getSuperPVCandGuestPVCName this metadata with
      | Outcome.panic m => (calls, Outcome.panic m)
      | Outcome.outOfFuel => (calls, Outcome.outOfFuel)
      | Outcome.returned (_, _, _, _, some err) => (calls, Outcome.returned (none, some err))
      | Outcome.returned (none, _, _, _, none) =>
          (calls, Outcome.panic "nil pointer dereference")
      | Outcome.returned (some svcPVC, gcPVCNamespace, gcPVCName, gcPVCLabels, none) =>
          match this.ext.Marshal svcPVC with
          | (_, some err) =>
              (calls, Outcome.returned
                (none, errors.Wrap (some err) "Could not marshal SVC PVC data"))
          | (svcPVCData, none) =>
              match convertSnapshotID sourceSnapshotID svcPVC.Namespace svcPVC.Name with
              | Outcome.panic m => (calls, Outcome.panic m)
              | Outcome.outOfFuel => (calls, Outcome.outOfFuel)
              | Outcome.returned (_, some err) => (calls, Outcome.returned (none, some err))
              | Outcome.returned (newSnapshotID, none) =>
                  let request :=
                    cloneRequest this newSnapshotID svcPVCData apiGroup kind backupRepositoryName
                  let calls := calls ++ [Call.cloneFromSnapshotRef request]
                  match this.ext.CloneFromSnapshopRef request with
                  | (_, some err) => (calls, Outcome.returned (none, some err))
                  | (svcClone, none) =>
                      if svcClone.Status.Phase = ClonePhase.Failed then
                        (calls, Outcome.returned (none, some (GoError.errorf
                          "CloneFromSnapshot failed in the Supervisor Cluster")))
                      else if svcClone.Status.Phase = ClonePhase.Canceled then
                        (calls, Outcome.returned (none, some (GoError.errorf
                          "CloneFromSnapshot is canceled in the Supervisor Cluster")))
                      else
                        let rest := materializeAndReport this svcPVC.Name gcPVCNamespace
                          gcPVCName gcPVCLabels cloneFromSnapshotNamespace
                          cloneFromSnapshotName svcClone
                        (calls ++ rest.1, rest.2)

/-! ## Chains of nested identifiers -/

/-- The type name and the resource id of an identifier are not empty and hold
no colon. -/
def ColonFreeNames (id : ProtectedEntityID) : Prop :=
  id.peType ≠ [] ∧ colon ∉ id.peType ∧ id.id ≠ [] ∧ colon ∉ id.id

instance ColonFreeNames.decidable (id : ProtectedEntityID) : Decidable (ColonFreeNames id) :=
  inferInstanceAs (Decidable (id.peType ≠ [] ∧ colon ∉ id.peType ∧ id.id ≠ [] ∧ colon ∉ id.id))

/-- A chain `id_1 .. id_k` of nested identifiers, `k ≥ 1`: every identifier but
the last has a provider type other than `"ivd"` and carries as its snapshot id
the raw standard base64 of the canonical string of the next identifier; the last
identifier has the provider type `"ivd"`. -/
def IdentifierChain : List ProtectedEntityID → Prop
  | [] => False
  | [last] => last.peType = str "ivd"
  | id :: next :: rest =>
      id.peType ≠ str "ivd" ∧ id.snapshotID.id = EncodeToString next.String ∧
        IdentifierChain (next :: rest)

instance IdentifierChain.decidable :
    (ids : List ProtectedEntityID) → Decidable (IdentifierChain ids)
  | [] => inferInstanceAs (Decidable False)
  | [last] => inferInstanceAs (Decidable (last.peType = str "ivd"))
  | id :: next :: rest =>
      letI := IdentifierChain.decidable (next :: rest)
      inferInstanceAs (Decidable (id.peType ≠ str "ivd" ∧
        id.snapshotID.id = EncodeToString next.String ∧ IdentifierChain (next :: rest)))

/-- The identifier `ivd:a` with the snapshot id `b:c`, which holds a colon. -/
def ivdWithColonSnapshot : ProtectedEntityID :=
  { peType := str "ivd", id := str "a", snapshotID := { id := str "b:c" } }

/-- The identifier `ivd:fcd-1:snap-1`. -/
def ivdExample : ProtectedEntityID :=
  { peType := str "ivd", id := str "fcd-1", snapshotID := { id := str "snap-1" } }

/-- The identifier `paravirt-pv:pvc-1` whose snapshot id is the encoded
canonical string of `ivdExample`. -/
def paravirtExample : ProtectedEntityID :=
  { peType := str "paravirt-pv", id := str "pvc-1",
    snapshotID := { id := EncodeToString ivdExample.String } }

/-! ## Concrete inputs used by witnesses and counterexamples -/

/-- The origin claim `gc-ns/data-pvc` with label `app=x`, access mode
`ReadWriteOnce`, a request of `1Gi`, volume mode `Filesystem` and the given
storage class name. -/
def originClaim (storageClassName : Option GoString) : PersistentVolumeClaim :=
  { Name := str "data-pvc"
    Namespace := str "gc-ns"
    Labels := [(str "app", str "x")]
    Annotations := []
    Spec :=
      { AccessModes := [str "ReadWriteOnce"]
        Resources := { Limits := [], Requests := [(str "storage", str "1Gi")] }
        VolumeName := []
        StorageClassName := storageClassName
        VolumeMode := some (str "Filesystem") }
    Status := { Phase := [], Capacity := [] } }

/-- The origin claim `gc-ns/db`: as `originClaim` with storage class `gc-sc`,
under a name of two bytes. -/
def shortNameClaim : PersistentVolumeClaim :=
  { originClaim (some (str "gc-sc")) with Name := str "db" }

/-- Replies of a run in which every external call succeeds: the metadata
unmarshals to `origin`, the two UUID draws give fixed UUIDs, the clone request
comes back in phase `phase`, the supervisor claim is bound with a capacity of
`1Gi`, the guest cluster stores what it is sent and the guest claim gets bound. -/
def cooperativeExternal (origin : PersistentVolumeClaim) (phase : ClonePhase) : External :=
  { GetBackupRepositoryFromBackupRepositoryName := fun _ => (str "svc-br-1", none)
    Unmarshal := fun _ => (origin, none)
    pvcUUID := (str "0f4e37de-038d-11eb-adc1-0242ac120002", none)
    pvUUID := (str "15d0ac8f-418f-4e5d-99c1-b127263e2058", none)
    Marshal := fun _ => (str "marshalled-claim", none)
    CloneFromSnapshopRef := fun request =>
      ({ Namespace := request.svcNamespace
         Name := str "clone-1"
         Spec :=
           { SnapshotID := request.snapshotID
             Metadata := request.metadata
             APIGroup := some request.apiGroup
             Kind := request.kind
             BackupRepository := request.backupRepositoryName }
         Status := { Phase := phase, Message := [], ResourceHandle := none } }, none)
    svcGetPVC := fun ns name =>
      ({ origin with
          Name := name
          Namespace := ns
          Labels := []
          Status := { Phase := str "Bound", Capacity := [(str "storage", str "1Gi")] } }, none)
    gcCreatePV := fun pv => (pv, none)
    gcCreatePVC := fun _ pvc => (pvc, none)
    WaitForPersistentVolumeClaimPhase := fun _ _ => none
    gcGetClone := fun ns name =>
      ({ Namespace := ns
         Name := name
         Spec :=
           { SnapshotID := []
             Metadata := []
             APIGroup := none
             Kind := str "PersistentVolumeClaim"
             BackupRepository := [] }
         Status := { Phase := ClonePhase.Pending, Message := [], ResourceHandle := none } },
        none)
    gcUpdateCloneStatus := fun _ clone => (clone, none)
    newParaVirtProtectedEntity := fun id => (some { id := id }, none) }

/-- The type manager of the supervisor namespace `svc-ns` with the replies of
`cooperativeExternal`. -/
def cooperativeManager (origin : PersistentVolumeClaim) (phase : ClonePhase) :
    ParaVirtProtectedEntityTypeManager :=
  { svcNamespace := str "svc-ns", ext := cooperativeExternal origin phase }

/-- The source identifier `pvc:gc-ns/data-pvc:<snapshot id>` whose snapshot id
is the encoded canonical string of `paravirtExample`. -/
def sourceSnapshotExample : ProtectedEntityID :=
  { peType := str "pvc", id := str "gc-ns/data-pvc",
    snapshotID := { id := EncodeToString paravirtExample.String } }

/-! ## The snapshot ids that the recursion of `decodeSnapshotID` reaches -/

/-- `DecodeReaches s t`: the call `decodeSnapshotID s` makes, directly or through
nested calls, the call `decodeSnapshotID t`. It reaches `s` itself, and whatever
is reached from the nested snapshot id when `s` decodes and parses to an
identifier that has a snapshot id and a provider type other than `"ivd"`. -/
inductive DecodeReaches : ProtectedEntitySnapshotID → ProtectedEntitySnapshotID → Prop where
  | here (s : ProtectedEntitySnapshotID) : DecodeReaches s s
  | nested (s t : ProtectedEntitySnapshotID) (b : List Byte) (pe : ProtectedEntityID)
      (hd : DecodeString s.String = some b)
      (hp : NewProtectedEntityIDFromString b = (pe, none))
      (hc : (pe.HasSnapshot && pe.GetPeType != str "ivd") = true)
      (h : DecodeReaches pe.GetSnapshotID t) : DecodeReaches s t

/-- The identifier `paravirt-pv:pvc-1` with the snapshot id `!!!`, which is no
base64. -/
def corruptNestedExample : ProtectedEntityID :=
  { peType := str "paravirt-pv", id := str "pvc-1", snapshotID := { id := str "!!!" } }

/-- The supervisor claim that `getSuperPVCandGuestPVCName` builds from
`originClaim (some "gc-sc")` in the supervisor namespace `svc-ns`. -/
def targetClaimExample : PersistentVolumeClaim :=
  { originClaim (some (str "gc-sc")) with
    Name := str "data-0f4e37de-038d-11eb-adc1-0242ac120002"
    Namespace := str "svc-ns"
    Labels := [] }

/-- The cross-cluster snapshot id built for `sourceSnapshotExample` and
`targetClaimExample`. -/
def newSnapshotIDExample : GoString :=
  str "pvc:svc-ns/data-0f4e37de-038d-11eb-adc1-0242ac120002:" ++ EncodeToString ivdExample.String

/-- The reply of the clone request of `cooperativeExternal` in the example run. -/
def svcCloneExample (phase : ClonePhase) : CloneFromSnapshot :=
  ((cooperativeExternal (originClaim (some (str "gc-sc"))) phase).CloneFromSnapshopRef
    (cloneRequest (cooperativeManager (originClaim (some (str "gc-sc"))) phase)
      newSnapshotIDExample (str "marshalled-claim") [] (str "PersistentVolumeClaim")
      (str "svc-br-1"))).1

/-- The supervisor claim that the example run fetches before it creates the
guest volume: `targetClaimExample`, bound, with a capacity of `1Gi`. -/
def boundClaimExample : PersistentVolumeClaim :=
  { targetClaimExample with
    Status := { Phase := str "Bound", Capacity := [(str "storage", str "1Gi")] } }

/-- The type manager of `cooperativeManager` for the origin claim
`gc-ns/data-pvc` with storage class `gc-sc`, in a run where the UUID draw of
`getSuperPVCandGuestPVCName` fails. -/
def uuidFailingManager : ParaVirtProtectedEntityTypeManager :=
  { svcNamespace := str "svc-ns"
    ext :=
      { cooperativeExternal (originClaim (some (str "gc-sc"))) ClonePhase.Completed with
        pvcUUID := ([], some (GoError.external "uuid.NewRandom: read failed")) } }

/-- The zero value of `v1.PersistentVolume`, which a typed client returns
together with the error when a call fails. -/
def zeroPersistentVolume : PersistentVolume :=
  { Name := [], Spec := { AccessModes := [], Capacity := [], CSI := none, ClaimRef := none } }

/-- The type manager of `cooperativeManager` for the origin claim
`gc-ns/data-pvc`, in a run where the guest cluster refuses the creation of the
volume with an error that is not `AlreadyExists`. -/
def createRefusedManager : ParaVirtProtectedEntityTypeManager :=
  { svcNamespace := str "svc-ns"
    ext :=
      { cooperativeExternal (originClaim (some (str "gc-sc"))) ClonePhase.Completed with
        gcCreatePV := fun _ =>
          (zeroPersistentVolume, some (GoError.external "persistentvolumes is forbidden")) } }

/-! ## The status propagator with explicit pointers

The method `updateCloneFromSnapshotStatus` works on pointers: `Get` returns a
pointer to the fetched object, `DeepCopy` returns a pointer to a new object, and
the three assignments go through the second pointer. The embedding below keeps
the objects in heap cells, so that what happens to the fetched object can be
stated. -/

/-- The heap cells that hold `CloneFromSnapshot` objects. A pointer
`*CloneFromSnapshot` is the index of a cell. -/
abbrev CloneHeap := List CloneFromSnapshot

/-- A new cell holding `v`: the heap with the cell, and the pointer to it. -/
def CloneHeap.alloc (heap : CloneHeap) (v : CloneFromSnapshot) : CloneHeap × Nat :=
  (heap ++ [v], heap.length)

/-- The object behind a pointer, `none` for a pointer to no cell. -/
def CloneHeap.read : CloneHeap → Nat → Option CloneFromSnapshot
  | [], _ => none
  | v :: _, 0 => some v
  | _ :: rest, p + 1 => CloneHeap.read rest p

/-- An assignment to fields of the object behind a pointer. -/
def CloneHeap.write : CloneHeap → Nat → (CloneFromSnapshot → CloneFromSnapshot) → CloneHeap
  | [], _, _ => []
  | v :: rest, 0, f => f v :: rest
  | v :: rest, p + 1, f => v :: CloneHeap.write rest p f

/-- The method `updateCloneFromSnapshotStatus` on a heap: the heap after the
call, the pointer `gcClone` to the fetched object, the calls issued and the
error returned. -/
def updateCloneFromSnapshotStatusOnHeap (this : ParaVirtProtectedEntityTypeManager)
    (heap : CloneHeap) (cloneFromSnapshotNamespace : GoString)
    (cloneFromSnapshotName : GoString) (svcClone : CloneFromSnapshot) :
    Outcome (CloneHeap × Nat × List Call × Option GoError) :=
  let fetched :=
    heap.alloc (this.ext.gcGetClone cloneFromSnapshotNamespace cloneFromSnapshotName).1
  let heap := fetched.1
  let gcClone := fetched.2
  let err := (this.ext.gcGetClone cloneFromSnapshotNamespace cloneFromSnapshotName).2
  let calls := [Call.gcGetClone cloneFromSnapshotNamespace cloneFromSnapshotName]
  if err ≠ none then
    Outcome.returned (heap, gcClone, calls,
      errors.Wrap err "failed to get cloneFromSnapshot record in Guest Cluster")
  else
    match heap.read gcClone with
    | none => Outcome.panic "nil pointer dereference"
    | some object =>
        let copied := heap.alloc object
        let heap := copied.1
        let clone := copied.2
        let heap := heap.write clone
          (fun o => { o with Status := { o.Status with Phase := svcClone.Status.Phase } })
        let heap := heap.write clone
          (fun o => { o with Status := { o.Status with Message := svcClone.Status.Message } })
        let heap := heap.write clone
          (fun o =>
            { o with Status := { o.Status with ResourceHandle := svcClone.Status.ResourceHandle } })
        match heap.read clone with
        | none => Outcome.panic "nil pointer dereference"
        | some persisted =>
            let err := (this.ext.gcUpdateCloneStatus cloneFromSnapshotNamespace persisted).2
            let calls :=
              calls ++ [Call.gcUpdateCloneStatus cloneFromSnapshotNamespace persisted]
            if err ≠ none then Outcome.returned (heap, gcClone, calls, err)
            else Outcome.returned (heap, gcClone, calls, none)

/-- A supervisor-side clone object in phase `Completed` with a message and a
resource handle. -/
def completedCloneExample : CloneFromSnapshot :=
  { Namespace := str "svc-ns"
    Name := str "clone-1"
    Spec :=
      { SnapshotID := newSnapshotIDExample
        Metadata := str "marshalled-claim"
        APIGroup := some []
        Kind := str "PersistentVolumeClaim"
        BackupRepository := str "svc-br-1" }
    Status :=
      { Phase := ClonePhase.Completed
        Message := str "clone done"
        ResourceHandle :=
          some { APIGroup := some [], Kind := str "PersistentVolumeClaim",
                 Name := str "data-0f4e37de-038d-11eb-adc1-0242ac120002" } } }

/-- The origin-side clone object `gc-ns/clone-req` that the guest cluster of
`cooperativeExternal` returns. -/
def fetchedCloneExample : CloneFromSnapshot :=
  ((cooperativeExternal (originClaim (some (str "gc-sc"))) ClonePhase.Completed).gcGetClone
    (str "gc-ns") (str "clone-req")).1

/-- The identifier `ivd:fcd-1:snap-1` wrapped in `n` layers
`paravirt-pv:pvc-1:<encoded inner identifier>`: an identifier nested `n + 1`
levels deep. -/
def nestedIdentifier : Nat → ProtectedEntityID
  | 0 => ivdExample
  | n + 1 =>
      { peType := str "paravirt-pv", id := str "pvc-1",
        snapshotID := { id := EncodeToString (nestedIdentifier n).String } }

/-- The terminal identifier
`ivd:1e46bb4d-b3f0-40d5-9ca8-3bae6f595955:ea4e347a-be29-4e5b-a626-725b83f168fc`. -/
def fcdSnapshotExample : ProtectedEntityID :=
  { peType := str "ivd", id := str "1e46bb4d-b3f0-40d5-9ca8-3bae6f595955",
    snapshotID := { id := str "ea4e347a-be29-4e5b-a626-725b83f168fc" } }

/-- The source identifier `pvc:gc-ns/data-pvc:<snapshot id>` whose snapshot id
is the raw standard base64 of the canonical string of `fcdSnapshotExample`. -/
def fcdSourceExample : ProtectedEntityID :=
  { peType := str "pvc", id := str "gc-ns/data-pvc",
    snapshotID := { id := EncodeToString fcdSnapshotExample.String } }

/-! ## The guest cluster as an object store

The creation calls of the Kubernetes API, as the capability
`create(kind, object) -> object | AlreadyExists` on a store of named objects. -/

/-- The volumes and the volume claims that the guest cluster holds. -/
structure GuestStore where
  volumes : List PersistentVolume
  claims : List PersistentVolumeClaim
  deriving DecidableEq, Repr

/-- The guest-cluster `PersistentVolumes().Create(pv)` on a store: an
`AlreadyExists` error, with the zero object and the store as it was, when the
store holds a volume of that name; otherwise the volume is stored and returned. -/
def GuestStore.createPV (store : GuestStore) (pv : PersistentVolume) :
    GuestStore × (PersistentVolume × Option GoError) :=
  if store.volumes.any (fun v => v.Name = pv.Name) then
    (store, (zeroPersistentVolume, some GoError.alreadyExists))
  else ({ store with volumes := store.volumes ++ [pv] }, (pv, none))

/-- The zero value of `v1.PersistentVolumeClaim`. -/
def zeroPersistentVolumeClaim : PersistentVolumeClaim :=
  { Name := [], Namespace := [], Labels := [], Annotations := []
    Spec :=
      { AccessModes := [], Resources := { Limits := [], Requests := [] }, VolumeName := []
        StorageClassName := none, VolumeMode := none }
    Status := { Phase := [], Capacity := [] } }

/-- The guest-cluster `PersistentVolumeClaims(ns).Create(pvc)` on a store: an
`AlreadyExists` error when the store holds a claim of that name in the
namespace; otherwise the claim is stored and returned. -/
def GuestStore.createPVC (store : GuestStore) (ns : GoString) (pvc : PersistentVolumeClaim) :
    GuestStore × (PersistentVolumeClaim × Option GoError) :=
  if store.claims.any (fun c => c.Namespace = ns ∧ c.Name = pvc.Name) then
    (store, (zeroPersistentVolumeClaim, some GoError.alreadyExists))
  else ({ store with claims := store.claims ++ [pvc] }, (pvc, none))

/-- The effect of a call on the store: the creation calls change it as
`createPV` and `createPVC` say, the other calls leave it as it is. -/
def GuestStore.apply (store : GuestStore) (call : Call) : GuestStore :=
  match call with
  | Call.gcCreatePV pv => (store.createPV pv).1
  | Call.gcCreatePVC ns pvc => (store.createPVC ns pvc).1
  | _ => store

/-- The type manager whose guest cluster is the store: the creation calls are
answered from the store, and the UUID draw of `createGuestPV` gives `u`. -/
def onStore (this : ParaVirtProtectedEntityTypeManager) (store : GuestStore) (u : GoString) :
    ParaVirtProtectedEntityTypeManager :=
  { this with
    ext :=
      { this.ext with
        pvUUID := (u, none)
        gcCreatePV := fun pv => (store.createPV pv).2
        gcCreatePVC := fun ns pvc => (store.createPVC ns pvc).2 } }

/-- One run of the guest volume materializer against the store, as lines 257 to
265 of `CreateFromMetadata` make it: `createGuestPV`, then `createGuestPVC` with
the name of the returned volume. The run draws the UUID `u`. The result is the
store after the run and what the two functions returned. -/
def materializeOnStore (this : ParaVirtProtectedEntityTypeManager) (store : GuestStore)
    (u : GoString) (gcPVCNamespace gcPVCName : GoString) (gcPVCLabels : GoMap)
    (svcPVC : PersistentVolumeClaim) (CSIDriverName : GoString) :
    GuestStore × (Option PersistentVolume × Option PersistentVolumeClaim × Option GoError) :=
  let pv := createGuestPV (onStore this store u) gcPVCNamespace gcPVCName svcPVC CSIDriverName
  let store := pv.1.foldl GuestStore.apply store
  match pv.2 with
  | (some gcPV, none) =>
      let pvc := createGuestPVC (onStore this store u) gcPVCNamespace gcPVCName gcPVCLabels
        gcPV.Name svcPVC
      let store := pvc.1.foldl GuestStore.apply store
      (store, (some gcPV, pvc.2.1, pvc.2.2))
  | (_, err) => (store, (none, none, err))

/-- The guest cluster that holds no volume and no claim. -/
def emptyGuestStore : GuestStore := { volumes := [], claims := [] }

/-- The volume manifest that `createGuestPV` builds when it draws the UUID `u`. -/
def guestVolumeManifest (u : GoString) (gcPVCNamespace gcPVCName : GoString)
    (svcPVC : PersistentVolumeClaim) (CSIDriverName : GoString) : PersistentVolume :=
  { Name := str "pvc-" ++ u
    Spec :=
      { AccessModes := svcPVC.Spec.AccessModes
        Capacity := svcPVC.Status.Capacity
        CSI := some { Driver := CSIDriverName, VolumeHandle := svcPVC.Name }
        ClaimRef := some { Namespace := gcPVCNamespace, Name := gcPVCName } } }

/-- The claim manifest that `createGuestPVC` builds. -/
def guestClaimManifest (gcPVCNamespace gcPVCName : GoString) (gcPVCLabels : GoMap)
    (gcPVName : GoString) (svcPVC : PersistentVolumeClaim) : PersistentVolumeClaim :=
  { Name := gcPVCName
    Namespace := gcPVCNamespace
    Labels := gcPVCLabels
    Annotations := []
    Spec :=
      { AccessModes := svcPVC.Spec.AccessModes
        Resources := svcPVC.Spec.Resources
        VolumeMode := svcPVC.Spec.VolumeMode
        VolumeName := gcPVName
        StorageClassName := none }
    Status := { Phase := [], Capacity := [] } }

/-- The origin claim of `originClaim` with storage class `gc-sc`, under the
given name. -/
def claimNamed (name : GoString) : PersistentVolumeClaim :=
  { originClaim (some (str "gc-sc")) with Name := name }

/-! ## The wait of the clone request -/

/-- Modelled from the spec: the helper `snapshotUtils.CloneFromSnapshopRef` is
code of `pkg/snapshotUtils`, which is not among the source files. By section 4.3
of the specification it blocks until the phase of the object enters the phases
it is given to wait for, and fails (`CloneTimeout`) when that does not happen;
the comment above the call in `CreateFromMetadata` says the same (the object is
built "and wait for its phase to become Completed, Failed, or Canceled"). So a
reply without error carries one of the phases of the request. -/
def WaitContract (request : CloneFromSnapshotRequest)
    (reply : CloneFromSnapshot × Option GoError) : Prop :=
  reply.2 = none → reply.1.Status.Phase ∈ request.waitForPhases

instance WaitContract.decidable (request : CloneFromSnapshotRequest)
    (reply : CloneFromSnapshot × Option GoError) : Decidable (WaitContract request reply) :=
  inferInstanceAs (Decidable (reply.2 = none → reply.1.Status.Phase ∈ request.waitForPhases))

/-- The type manager of `cooperativeManager` for the origin claim
`gc-ns/data-pvc`, in a run where the guest cluster answers the creation of the
volume with `AlreadyExists`. -/
def createAlreadyExistsManager : ParaVirtProtectedEntityTypeManager :=
  { svcNamespace := str "svc-ns"
    ext :=
      { cooperativeExternal (originClaim (some (str "gc-sc"))) ClonePhase.Completed with
        gcCreatePV := fun _ => (zeroPersistentVolume, some GoError.alreadyExists) } }

/-! # Theorems -/

/-! ## base64 -/

theorem decodeMap_encodeMap_fin : ∀ v : Fin 64, decodeMap (encodeMap v.val) = some v.val := by
  decide

theorem decodeMap_encodeMap (v : Nat) (h : v < 64) : decodeMap (encodeMap v) = some v :=
  decodeMap_encodeMap_fin ⟨v, h⟩

theorem encodeMap_plain_fin : ∀ v : Fin 64,
    encodeMap v.val ≠ newline ∧ encodeMap v.val ≠ carriageReturn ∧ encodeMap v.val ≠ colon := by
  decide

theorem encodeMap_plain (v : Nat) (h : v < 64) :
    encodeMap v ≠ newline ∧ encodeMap v ≠ carriageReturn ∧ encodeMap v ≠ colon :=
  encodeMap_plain_fin ⟨v, h⟩

theorem toByte_first (a b : Byte) :
    toByte (a.val / 4 * 4 + (a.val % 4 * 16 + b.val / 16) / 16) = a := by
  apply Fin.ext
  have ha := a.isLt
  have hb := b.isLt
  simp only [toByte]
  omega

theorem toByte_first_last (a : Byte) :
    toByte (a.val / 4 * 4 + (a.val % 4 * 16) / 16) = a := by
  apply Fin.ext
  have ha := a.isLt
  simp only [toByte]
  omega

theorem toByte_second (a b c : Byte) :
    toByte ((a.val % 4 * 16 + b.val / 16) % 16 * 16 + (b.val % 16 * 4 + c.val / 64) / 4) = b := by
  apply Fin.ext
  have ha := a.isLt
  have hb := b.isLt
  have hc := c.isLt
  simp only [toByte]
  omega

theorem toByte_second_last (a b : Byte) :
    toByte ((a.val % 4 * 16 + b.val / 16) % 16 * 16 + (b.val % 16 * 4) / 4) = b := by
  apply Fin.ext
  have ha := a.isLt
  have hb := b.isLt
  simp only [toByte]
  omega

theorem toByte_third (b c : Byte) :
    toByte ((b.val % 16 * 4 + c.val / 64) % 4 * 64 + c.val % 64) = c := by
  apply Fin.ext
  have hb := b.isLt
  have hc := c.isLt
  simp only [toByte]
  omega

/-- Decoding the quanta of an encoded byte sequence gives the sequence back. -/
theorem decodeQuanta_EncodeToString : ∀ bs : List Byte,
    decodeQuanta (EncodeToString bs) = some bs
  | [] => rfl
  | [a] => by
      have ha := a.isLt
      simp only [EncodeToString, decodeQuanta]
      rw [decodeMap_encodeMap _ (by omega), decodeMap_encodeMap _ (by omega)]
      simp only [toByte_first_last]
  | [a, b] => by
      have ha := a.isLt
      have hb := b.isLt
      simp only [EncodeToString, decodeQuanta]
      rw [decodeMap_encodeMap _ (by omega), decodeMap_encodeMap _ (by omega),
        decodeMap_encodeMap _ (by omega)]
      simp only [toByte_first, toByte_second_last]
  | a :: b :: c :: rest => by
      have ha := a.isLt
      have hb := b.isLt
      have hc := c.isLt
      simp only [EncodeToString, decodeQuanta]
      rw [decodeMap_encodeMap _ (by omega), decodeMap_encodeMap _ (by omega),
        decodeMap_encodeMap _ (by omega), decodeMap_encodeMap _ (by omega),
        decodeQuanta_EncodeToString rest]
      simp only [toByte_first, toByte_second, toByte_third]

/-- Every byte of an encoded string is an alphabet byte: it is no line break and
no colon. -/
theorem EncodeToString_plain : ∀ (bs : List Byte) (x : Byte), x ∈ EncodeToString bs →
    x ≠ newline ∧ x ≠ carriageReturn ∧ x ≠ colon
  | [], x, hx => by simp [EncodeToString] at hx
  | [a], x, hx => by
      have ha := a.isLt
      simp only [EncodeToString, List.mem_cons, List.mem_singleton, List.not_mem_nil,
        or_false] at hx
      rcases hx with rfl | rfl <;> exact encodeMap_plain _ (by omega)
  | [a, b], x, hx => by
      have ha := a.isLt
      have hb := b.isLt
      simp only [EncodeToString, List.mem_cons, List.mem_singleton, List.not_mem_nil,
        or_false] at hx
      rcases hx with rfl | rfl | rfl <;> exact encodeMap_plain _ (by omega)
  | a :: b :: c :: rest, x, hx => by
      have ha := a.isLt
      have hb := b.isLt
      have hc := c.isLt
      simp only [EncodeToString, List.mem_cons] at hx
      rcases hx with rfl | rfl | rfl | rfl | hx
      · exact encodeMap_plain _ (by omega)
      · exact encodeMap_plain _ (by omega)
      · exact encodeMap_plain _ (by omega)
      · exact encodeMap_plain _ (by omega)
      · exact EncodeToString_plain rest x hx

/-- Round trip of the raw standard encoding: `DecodeString (EncodeToString bs)`
succeeds with `bs`. -/
theorem DecodeString_EncodeToString (bs : List Byte) :
    DecodeString (EncodeToString bs) = some bs := by
  unfold DecodeString
  have hfilter : (EncodeToString bs).filter (fun c => c != newline && c != carriageReturn)
      = EncodeToString bs := by
    apply List.filter_eq_self.mpr
    intro x hx
    have h := EncodeToString_plain bs x hx
    simp [h.1, h.2.1]
  rw [hfilter, decodeQuanta_EncodeToString]

/-- An encoded string is empty only for the empty byte sequence. -/
theorem EncodeToString_ne_nil : ∀ bs : List Byte, bs ≠ [] → EncodeToString bs ≠ []
  | [], h => absurd rfl h
  | [_], _ => by simp [EncodeToString]
  | [_, _], _ => by simp [EncodeToString]
  | _ :: _ :: _ :: _, _ => by simp [EncodeToString]

/-- Decoding does not lengthen: the decoded bytes are at most as many as the
bytes of the quanta. -/
theorem decodeQuanta_length : ∀ (l out : List Byte), decodeQuanta l = some out →
    out.length ≤ l.length
  | [], out, h => by
      simp only [decodeQuanta, Option.some.injEq] at h
      subst h; simp
  | [_], out, h => by simp [decodeQuanta] at h
  | [c0, c1], out, h => by
      simp only [decodeQuanta] at h
      split at h
      · simp only [Option.some.injEq] at h
        subst h; simp
      · simp at h
  | [c0, c1, c2], out, h => by
      simp only [decodeQuanta] at h
      split at h
      · simp only [Option.some.injEq] at h
        subst h; simp
      · simp at h
  | c0 :: c1 :: c2 :: c3 :: rest, out, h => by
      simp only [decodeQuanta] at h
      split at h
      · rename_i s0 s1 s2 s3 out' _ _ _ _ hrest
        simp only [Option.some.injEq] at h
        subst h
        have := decodeQuanta_length rest out' hrest
        simp only [List.length_cons]
        omega
      · simp at h

/-- The decoded bytes of a string are at most as many as its bytes. -/
theorem DecodeString_length (s : GoString) (out : List Byte) (h : DecodeString s = some out) :
    out.length ≤ s.length := by
  unfold DecodeString at h
  have h1 := decodeQuanta_length _ _ h
  have h2 := List.length_filter_le (fun c => c != newline && c != carriageReturn) s
  omega

/-! ## `strings.Split` and the identifier string format -/

theorem splitParts_of_not_mem (t : List Byte) (h : colon ∉ t) :
    splitParts colon t = (t, []) := by
  induction t with
  | nil => rfl
  | cons c cs ih =>
      have hc : c ≠ colon := fun e => h (by simp [e])
      have hcs : colon ∉ cs := fun e => h (by simp [e])
      simp [splitParts, hc, ih hcs]

theorem splitParts_append (t rest : List Byte) (h : colon ∉ t) :
    splitParts colon (t ++ colon :: rest)
      = (t, (splitParts colon rest).1 :: (splitParts colon rest).2) := by
  induction t with
  | nil => simp [splitParts]
  | cons c cs ih =>
      have hc : c ≠ colon := fun e => h (by simp [e])
      have hcs : colon ∉ cs := fun e => h (by simp [e])
      simp [splitParts, hc, ih hcs]

/-- The bytes of a string are the bytes of its components and one separator
in front of each component but the first. -/
theorem splitParts_length (s : List Byte) :
    (splitParts colon s).1.length + ((splitParts colon s).2.map (fun p => p.length + 1)).sum
      = s.length := by
  induction s with
  | nil => rfl
  | cons c cs ih =>
      by_cases hc : c = colon
      · simp only [splitParts, hc, if_true, List.map_cons, List.sum_cons, List.length_nil,
          List.length_cons]
        omega
      · simp only [splitParts, hc, if_false, List.length_cons]
        omega

/-- Parsing the canonical string of an identifier whose three parts hold no
colon gives the identifier back. -/
theorem NewProtectedEntityIDFromString_String (pe : ProtectedEntityID)
    (ht : colon ∉ pe.peType) (hi : colon ∉ pe.id) (hs : colon ∉ pe.snapshotID.id) :
    NewProtectedEntityIDFromString pe.String = (pe, none) := by
  obtain ⟨t, i, ⟨sn⟩⟩ := pe
  simp only at ht hi hs
  by_cases hsn : sn = []
  · subst hsn
    simp [NewProtectedEntityIDFromString, ProtectedEntityID.String, strings.Split,
      splitParts_append _ _ ht, splitParts_of_not_mem _ hi]
  · have hne : (ProtectedEntitySnapshotID.mk sn) ≠ { id := [] } := by
      intro e
      exact hsn (congrArg ProtectedEntitySnapshotID.id e)
    simp [NewProtectedEntityIDFromString, ProtectedEntityID.String, strings.Split, hne,
      splitParts_append _ _ ht, splitParts_append _ _ hi, splitParts_of_not_mem _ hs,
      ProtectedEntitySnapshotID.String, NewProtectedEntitySnapshotID, List.append_assoc]

/-- A snapshot id delivered by the parser is shorter, by two bytes at least, than
the string that was parsed. -/
theorem NewProtectedEntityIDFromString_snapshot_length (b : GoString) (pe : ProtectedEntityID)
    (h : NewProtectedEntityIDFromString b = (pe, none)) (hsnap : pe.HasSnapshot = true) :
    pe.snapshotID.id.length + 2 ≤ b.length := by
  have hlen := splitParts_length b
  unfold NewProtectedEntityIDFromString strings.Split at h
  generalize (splitParts colon b).1 = hd at h hlen
  generalize (splitParts colon b).2 = tl at h hlen
  match tl, h, hlen with
  | [], h, _ => simp at h
  | [i], h, _ =>
      simp only [Prod.mk.injEq, and_true] at h
      subst h
      simp [ProtectedEntityID.HasSnapshot] at hsnap
  | [i, sn], h, hlen =>
      simp only [Prod.mk.injEq, and_true] at h
      subst h
      simp only [NewProtectedEntitySnapshotID, List.map_cons, List.map_nil, List.sum_cons,
        List.sum_nil] at hlen ⊢
      omega
  | i :: sn :: x :: more, h, _ =>
      simp only [Prod.mk.injEq, and_true] at h
      subst h
      simp [ProtectedEntityID.HasSnapshot] at hsnap

/-- The canonical string of an identifier is not empty. -/
theorem ProtectedEntityID.String_ne_nil (pe : ProtectedEntityID) : pe.String ≠ [] := by
  unfold ProtectedEntityID.String
  split <;> simp

/-! ## `decodeSnapshotID`: the bound on nested calls is never used up -/

/-- The nested call of `decodeSnapshotID` is made on a strictly shorter string. -/
theorem nested_snapshot_shorter (s : ProtectedEntitySnapshotID) (b : List Byte)
    (pe : ProtectedEntityID) (hd : DecodeString s.String = some b)
    (hp : NewProtectedEntityIDFromString b = (pe, none)) (hsnap : pe.HasSnapshot = true) :
    pe.GetSnapshotID.String.length < s.String.length := by
  have h1 := DecodeString_length _ _ hd
  have h2 := NewProtectedEntityIDFromString_snapshot_length b pe hp hsnap
  simp only [ProtectedEntityID.GetSnapshotID, ProtectedEntitySnapshotID.String] at *
  omega

/-- Two bounds that both exceed the length of the input give the same result. -/
theorem decodeSnapshotIDFuel_irrelevant : ∀ (n m : Nat) (s : ProtectedEntitySnapshotID),
    s.String.length < n → s.String.length < m →
    decodeSnapshotIDFuel n s = decodeSnapshotIDFuel m s
  | 0, _, _, hn, _ => absurd hn (Nat.not_lt_zero _)
  | _ + 1, 0, _, _, hm => absurd hm (Nat.not_lt_zero _)
  | n + 1, m + 1, s, hn, hm => by
      simp only [decodeSnapshotIDFuel]
      split
      · rfl
      · rename_i b hd
        split
        · rfl
        · rename_i pe hp
          split
          · rename_i hc
            have hsnap : pe.HasSnapshot = true := by
              simp only [Bool.and_eq_true] at hc
              exact hc.1
            have hlt := nested_snapshot_shorter s b pe hd hp hsnap
            exact decodeSnapshotIDFuel_irrelevant n m _ (by omega) (by omega)
          · rfl

/-- With a bound larger than the input length the result is that of
`decodeSnapshotID`. -/
theorem decodeSnapshotIDFuel_enough (fuel : Nat) (s : ProtectedEntitySnapshotID)
    (h : s.String.length < fuel) : decodeSnapshotIDFuel fuel s = decodeSnapshotID s :=
  decodeSnapshotIDFuel_irrelevant fuel _ s h (Nat.lt_succ_self _)

/-- With a bound larger than the input length the function returns. -/
theorem decodeSnapshotIDFuel_returns : ∀ (n : Nat) (s : ProtectedEntitySnapshotID),
    s.String.length < n → ∃ r, decodeSnapshotIDFuel n s = Outcome.returned r
  | 0, _, hn => absurd hn (Nat.not_lt_zero _)
  | n + 1, s, hn => by
      simp only [decodeSnapshotIDFuel]
      split
      · exact ⟨_, rfl⟩
      · rename_i b hd
        split
        · exact ⟨_, rfl⟩
        · rename_i pe hp
          split
          · rename_i hc
            have hsnap : pe.HasSnapshot = true := by
              simp only [Bool.and_eq_true] at hc
              exact hc.1
            have hlt := nested_snapshot_shorter s b pe hd hp hsnap
            exact decodeSnapshotIDFuel_returns n _ (by omega)
          · exact ⟨_, rfl⟩

/-- The function `decodeSnapshotID` returns on every input. -/
theorem decodeSnapshotID_returns (s : ProtectedEntitySnapshotID) :
    ∃ r, decodeSnapshotID s = Outcome.returned r :=
  decodeSnapshotIDFuel_returns _ s (Nat.lt_succ_self _)

theorem decodeRoundsFuel_irrelevant : ∀ (n m : Nat) (s : ProtectedEntitySnapshotID),
    s.String.length < n → s.String.length < m →
    decodeRoundsFuel n s = decodeRoundsFuel m s
  | 0, _, _, hn, _ => absurd hn (Nat.not_lt_zero _)
  | _ + 1, 0, _, _, hm => absurd hm (Nat.not_lt_zero _)
  | n + 1, m + 1, s, hn, hm => by
      simp only [decodeRoundsFuel]
      split
      · rfl
      · rename_i b hd
        split
        · rfl
        · rename_i pe hp
          split
          · rename_i hc
            have hsnap : pe.HasSnapshot = true := by
              simp only [Bool.and_eq_true] at hc
              exact hc.1
            have hlt := nested_snapshot_shorter s b pe hd hp hsnap
            rw [decodeRoundsFuel_irrelevant n m _ (by omega) (by omega)]
          · rfl

/-! ## `decodeSnapshotID`: the equations of the source -/

/-- The first failure exit: the input is no raw standard base64. -/
theorem decodeSnapshotID_corrupt (s : ProtectedEntitySnapshotID)
    (hd : DecodeString s.String = none) :
    decodeSnapshotID s = Outcome.returned ([], some (GoError.wrapped
      "Could not decode snapshot ID encoded string" GoError.corruptInput)) := by
  simp [decodeSnapshotID, decodeSnapshotIDFuel, hd, errors.Wrap]

/-- The second failure exit: the decoded text is no identifier. -/
theorem decodeSnapshotID_unparsable (s : ProtectedEntitySnapshotID) (b : List Byte)
    (pe : ProtectedEntityID) (err : GoError) (hd : DecodeString s.String = some b)
    (hp : NewProtectedEntityIDFromString b = (pe, some err)) :
    decodeSnapshotID s = Outcome.returned ([], some (GoError.wrapped
      "Could not translate decoded snapshotID into pe-id" err)) := by
  simp [decodeSnapshotID, decodeSnapshotIDFuel, hd, hp, errors.Wrap]

/-- The recursive call: same result as on the nested snapshot id. -/
theorem decodeSnapshotID_nested (s : ProtectedEntitySnapshotID) (b : List Byte)
    (pe : ProtectedEntityID) (hd : DecodeString s.String = some b)
    (hp : NewProtectedEntityIDFromString b = (pe, none))
    (hc : (pe.HasSnapshot && pe.GetPeType != str "ivd") = true) :
    decodeSnapshotID s = decodeSnapshotID pe.GetSnapshotID := by
  have hsnap : pe.HasSnapshot = true := by
    simp only [Bool.and_eq_true] at hc
    exact hc.1
  have hlt := nested_snapshot_shorter s b pe hd hp hsnap
  have h1 : decodeSnapshotID s = decodeSnapshotIDFuel s.String.length pe.GetSnapshotID := by
    simp [decodeSnapshotID, decodeSnapshotIDFuel, hd, hp, hc]
  rw [h1]
  exact decodeSnapshotIDFuel_enough _ _ hlt

/-- The successful exit: the parsed identifier is encoded again. -/
theorem decodeSnapshotID_terminal (s : ProtectedEntitySnapshotID) (b : List Byte)
    (pe : ProtectedEntityID) (hd : DecodeString s.String = some b)
    (hp : NewProtectedEntityIDFromString b = (pe, none))
    (hc : (pe.HasSnapshot && pe.GetPeType != str "ivd") = false) :
    decodeSnapshotID s = Outcome.returned (EncodeToString pe.String, none) := by
  simp [decodeSnapshotID, decodeSnapshotIDFuel, hd, hp, hc]

theorem decodeRounds_nested (s : ProtectedEntitySnapshotID) (b : List Byte)
    (pe : ProtectedEntityID) (hd : DecodeString s.String = some b)
    (hp : NewProtectedEntityIDFromString b = (pe, none))
    (hc : (pe.HasSnapshot && pe.GetPeType != str "ivd") = true) :
    decodeRounds s = (decodeRounds pe.GetSnapshotID).map (· + 1) := by
  have hsnap : pe.HasSnapshot = true := by
    simp only [Bool.and_eq_true] at hc
    exact hc.1
  have hlt := nested_snapshot_shorter s b pe hd hp hsnap
  have h1 : decodeRounds s
      = (decodeRoundsFuel s.String.length pe.GetSnapshotID).map (· + 1) := by
    simp [decodeRounds, decodeRoundsFuel, hd, hp, hc]
  rw [h1, decodeRoundsFuel_irrelevant _ (pe.GetSnapshotID.String.length + 1) _ hlt
    (Nat.lt_succ_self _)]
  rfl

theorem decodeRounds_terminal (s : ProtectedEntitySnapshotID) (b : List Byte)
    (pe : ProtectedEntityID) (hd : DecodeString s.String = some b)
    (hp : NewProtectedEntityIDFromString b = (pe, none))
    (hc : (pe.HasSnapshot && pe.GetPeType != str "ivd") = false) :
    decodeRounds s = some 1 := by
  simp [decodeRounds, decodeRoundsFuel, hd, hp, hc]

/-! ## C1: decoding a chain of nested identifiers -/

/-- Decoding the encoded canonical string of an identifier without colons in
its parts reaches the parser with that identifier. -/
theorem decode_parse_canonical (pe : ProtectedEntityID) (ht : colon ∉ pe.peType)
    (hi : colon ∉ pe.id) (hs : colon ∉ pe.snapshotID.id) :
    DecodeString (ProtectedEntitySnapshotID.mk (EncodeToString pe.String)).String
        = some pe.String ∧
      NewProtectedEntityIDFromString pe.String = (pe, none) :=
  ⟨DecodeString_EncodeToString _, NewProtectedEntityIDFromString_String pe ht hi hs⟩

/-- An identifier of a chain that is not the last one: one decode round, then
the decoding of the next identifier. -/
theorem chain_inner_step (id next : ProtectedEntityID) (hn : ColonFreeNames id)
    (htype : id.peType ≠ str "ivd") (hsnap : id.snapshotID.id = EncodeToString next.String) :
    decodeSnapshotID { id := EncodeToString id.String }
        = decodeSnapshotID { id := EncodeToString next.String } ∧
      decodeRounds { id := EncodeToString id.String }
        = (decodeRounds { id := EncodeToString next.String }).map (· + 1) := by
  have hs : colon ∉ id.snapshotID.id := by
    rw [hsnap]
    intro hmem
    exact (EncodeToString_plain _ _ hmem).2.2 rfl
  obtain ⟨hd, hp⟩ := decode_parse_canonical id hn.2.1 hn.2.2.2 hs
  have hc : (id.HasSnapshot && id.GetPeType != str "ivd") = true := by
    have h1 : id.snapshotID.id ≠ [] := by
      rw [hsnap]
      exact EncodeToString_ne_nil _ (ProtectedEntityID.String_ne_nil next)
    simp [ProtectedEntityID.HasSnapshot, ProtectedEntityID.GetPeType, h1, htype]
  have hnext : id.GetSnapshotID = { id := EncodeToString next.String } := by
    obtain ⟨t, i, ⟨sn⟩⟩ := id
    simp only [ProtectedEntityID.GetSnapshotID] at hsnap ⊢
    rw [hsnap]
  constructor
  · rw [decodeSnapshotID_nested _ _ _ hd hp hc, hnext]
  · rw [decodeRounds_nested _ _ _ hd hp hc, hnext]

/-- The last identifier of a chain: one decode round, and the identifier is
returned in encoded form. -/
theorem chain_last_step (last : ProtectedEntityID) (hn : ColonFreeNames last)
    (htype : last.peType = str "ivd") (hs : colon ∉ last.snapshotID.id) :
    decodeSnapshotID { id := EncodeToString last.String }
        = Outcome.returned (EncodeToString last.String, none) ∧
      decodeRounds { id := EncodeToString last.String } = some 1 := by
  obtain ⟨hd, hp⟩ := decode_parse_canonical last hn.2.1 hn.2.2.2 hs
  have hc : (last.HasSnapshot && last.GetPeType != str "ivd") = false := by
    simp [ProtectedEntityID.GetPeType, htype]
  exact ⟨decodeSnapshotID_terminal _ _ _ hd hp hc, decodeRounds_terminal _ _ _ hd hp hc⟩

/-- C1 (as amended): for every chain `first :: rest` of `k = rest.length + 1`
nested identifiers whose type names and resource ids are non-empty and
colon-free, whose inner identifiers have a provider type other than `"ivd"` and
carry the encoded canonical string of the next identifier as snapshot id, whose
last identifier has provider type `"ivd"` and a snapshot id without colon,
`decodeSnapshotID` on the encoded canonical string of the first identifier
returns, without error, the encoded canonical string of the last identifier,
after exactly `k` base64 decode rounds. -/
theorem decodeSnapshotID_chain (first : ProtectedEntityID) (rest : List ProtectedEntityID)
    (hchain : IdentifierChain (first :: rest))
    (hnames : ∀ id ∈ first :: rest, ColonFreeNames id)
    (hlast : colon ∉ ((first :: rest).getLast (List.cons_ne_nil first rest)).snapshotID.id) :
    decodeSnapshotID { id := EncodeToString first.String }
        = Outcome.returned
            (EncodeToString ((first :: rest).getLast (List.cons_ne_nil first rest)).String,
              none) ∧
      decodeRounds { id := EncodeToString first.String } = some (rest.length + 1) := by
  induction rest generalizing first with
  | nil =>
      simp only [List.getLast_singleton] at hlast ⊢
      exact chain_last_step first (hnames first (List.mem_cons_self _ _)) hchain hlast
  | cons next rest ih =>
      obtain ⟨htype, hsnap, hchain'⟩ := hchain
      have hstep := chain_inner_step first next (hnames first (List.mem_cons_self _ _))
        htype hsnap
      have hnames' : ∀ id ∈ next :: rest, ColonFreeNames id :=
        fun id hid => hnames id (List.mem_cons_of_mem _ hid)
      simp only [List.getLast_cons_cons] at hlast ⊢
      have hrec := ih next hchain' hnames' hlast
      rw [hstep.1, hstep.2, hrec.1, hrec.2]
      simp

/-- C1, witness: the chain `paravirt-pv:pvc-1:<encoded ivd:fcd-1:snap-1>`,
`ivd:fcd-1:snap-1` is decoded in two rounds to the encoded `ivd:fcd-1:snap-1`. -/
theorem decodeSnapshotID_chain_witness :
    IdentifierChain [paravirtExample, ivdExample] ∧
      decodeSnapshotID { id := EncodeToString paravirtExample.String }
        = Outcome.returned (EncodeToString ivdExample.String, none) ∧
      decodeRounds { id := EncodeToString paravirtExample.String } = some 2 :=
  ⟨by decide,
    decodeSnapshotID_chain paravirtExample [ivdExample] (by decide) (by decide) (by decide)⟩

/-- C1, counterexample to the claim as stated: the one-element chain made of the
identifier `ivd:a` with snapshot id `b:c` satisfies every condition of the claim
(type name and resource id non-empty and colon-free, provider type `"ivd"`), and
`decodeSnapshotID` on its encoded canonical string `ivd:a:b:c` returns the
encoded `ivd:a`, which is not the encoded canonical string of the identifier. -/
theorem decodeSnapshotID_chain_counterexample :
    IdentifierChain [ivdWithColonSnapshot] ∧
      (∀ id ∈ [ivdWithColonSnapshot], ColonFreeNames id) ∧
      decodeSnapshotID { id := EncodeToString ivdWithColonSnapshot.String }
        = Outcome.returned (EncodeToString (str "ivd:a"), none) ∧
      EncodeToString (str "ivd:a") ≠ EncodeToString ivdWithColonSnapshot.String := by
  decide

/-! ## C2: a manifest without storage class name -/

/-- For a manifest that unmarshals to a claim without storage class name and
with a name of at least four bytes, when the UUID draw succeeds, the function
returns no target manifest and the `nil` error: the error that is wrapped is the
`nil` error of the UUID draw. -/
theorem getSuperPVCandGuestPVCName_no_storage_class
    (this : ParaVirtProtectedEntityTypeManager) (metadata : List Byte)
    (hU : (this.ext.Unmarshal metadata).2 = none) (hN : this.ext.pvcUUID.2 = none)
    (hlen : 4 ≤ (this.ext.Unmarshal metadata).1.Name.length)
    (hS : (this.ext.Unmarshal metadata).1.Spec.StorageClassName = none) :
    getSuperPVCandGuestPVCName this metadata = Outcome.returned (none, [], [], [], none) := by
  have hlen' : ¬ (this.ext.Unmarshal metadata).1.Name.length < 4 := by omega
  simp [getSuperPVCandGuestPVCName, hU, hN, hlen', hS, errors.Wrap]

/-- C2, the code at the failing input: for the origin claim `gc-ns/data-pvc`
without storage class name `getSuperPVCandGuestPVCName` returns
`(nil, "", "", {}, nil)`: no target manifest, and no error either. -/
theorem getSuperPVCandGuestPVCName_missing_storage_class_returns_nil_error :
    getSuperPVCandGuestPVCName (cooperativeManager (originClaim none) ClonePhase.Completed) []
      = Outcome.returned (none, [], [], [], none) :=
  getSuperPVCandGuestPVCName_no_storage_class _ _ rfl rfl (by decide) rfl

/-! ## C3: the cross-cluster snapshot id -/

/-- C3: for every source identifier, target namespace `ns` and target claim name
`n`, when `decodeSnapshotID` succeeds on the snapshot id of the source identifier
with the encoded id `e`, `convertSnapshotID` returns, without error, exactly
`"pvc:" ++ ns ++ "/" ++ n ++ ":" ++ e`. -/
theorem convertSnapshotID_format (sourceSnapshotID : ProtectedEntityID) (ns n e : GoString)
    (hdecode : decodeSnapshotID sourceSnapshotID.GetSnapshotID = Outcome.returned (e, none)) :
    convertSnapshotID sourceSnapshotID ns n
      = Outcome.returned (str "pvc:" ++ ns ++ str "/" ++ n ++ str ":" ++ e, none) := by
  simp [convertSnapshotID, hdecode]

/-- C3, witness: the source identifier `pvc:gc-ns/data-pvc:<encoded
paravirt-pv:pvc-1:<encoded ivd:fcd-1:snap-1>>`, target `svc-ns/data-abc123`. -/
theorem convertSnapshotID_format_witness :
    decodeSnapshotID sourceSnapshotExample.GetSnapshotID
        = Outcome.returned (EncodeToString ivdExample.String, none) ∧
      convertSnapshotID sourceSnapshotExample (str "svc-ns") (str "data-abc123")
        = Outcome.returned (str "pvc:" ++ str "svc-ns" ++ str "/" ++ str "data-abc123"
            ++ str ":" ++ EncodeToString ivdExample.String, none) :=
  ⟨by decide,
    convertSnapshotID_format sourceSnapshotExample (str "svc-ns") (str "data-abc123")
      (EncodeToString ivdExample.String) (by decide)⟩

/-! ## C5: decode failures are propagated -/

/-- A snapshot id that fails to decode or to parse makes `decodeSnapshotID`
return the empty string and an error. -/
theorem decodeSnapshotID_fails_here (t : ProtectedEntitySnapshotID)
    (hfail : DecodeString t.String = none ∨
      ∃ b, DecodeString t.String = some b ∧ (NewProtectedEntityIDFromString b).2 ≠ none) :
    ∃ err, decodeSnapshotID t = Outcome.returned ([], some err) := by
  rcases hfail with hd | ⟨b, hd, hp⟩
  · exact ⟨_, decodeSnapshotID_corrupt t hd⟩
  · cases hparse : NewProtectedEntityIDFromString b with
    | mk pe e =>
        cases e with
        | none => simp [hparse] at hp
        | some err => exact ⟨_, decodeSnapshotID_unparsable t b pe err hd hparse⟩

/-- The function `convertSnapshotID` wraps the error of `decodeSnapshotID`. -/
theorem convertSnapshotID_of_decode_error (src : ProtectedEntityID) (ns n x : GoString)
    (err : GoError) (h : decodeSnapshotID src.GetSnapshotID = Outcome.returned (x, some err)) :
    convertSnapshotID src ns n = Outcome.returned
      ([], some (GoError.wrapped "failed to retrieve decoded snapshot id" err)) := by
  simp [convertSnapshotID, h, errors.Wrap]

/-- C5: when the input `s` of `decodeSnapshotID`, or a nested snapshot id `t`
reached by its recursion, is rejected by the raw standard base64 decoder or
decodes to text that the identifier parser rejects, `decodeSnapshotID s` returns
the empty string and a non-nil error, and so does `convertSnapshotID` on every
source identifier whose snapshot id is `s`; and whenever `decodeSnapshotID`
returns an error, `convertSnapshotID` returns the empty string and that error,
wrapped. -/
theorem decode_failure_propagates (s t : ProtectedEntitySnapshotID)
    (hreach : DecodeReaches s t)
    (hfail : DecodeString t.String = none ∨
      ∃ b, DecodeString t.String = some b ∧ (NewProtectedEntityIDFromString b).2 ≠ none) :
    (∃ err, decodeSnapshotID s = Outcome.returned ([], some err)) ∧
      (∀ (src : ProtectedEntityID) (ns n : GoString), src.GetSnapshotID = s →
        ∃ err, convertSnapshotID src ns n = Outcome.returned ([], some err)) ∧
      (∀ (src : ProtectedEntityID) (ns n x : GoString) (err : GoError),
        decodeSnapshotID src.GetSnapshotID = Outcome.returned (x, some err) →
        convertSnapshotID src ns n = Outcome.returned
          ([], some (GoError.wrapped "failed to retrieve decoded snapshot id" err))) := by
  have hdec : ∃ err, decodeSnapshotID s = Outcome.returned ([], some err) := by
    induction hreach with
    | here s => exact decodeSnapshotID_fails_here s hfail
    | nested s t b pe hd hp hc _ ih =>
        rw [decodeSnapshotID_nested s b pe hd hp hc]
        exact ih hfail
  refine ⟨hdec, ?_, ?_⟩
  · intro src ns n hsrc
    obtain ⟨err, herr⟩ := hdec
    rw [← hsrc] at herr
    exact ⟨_, convertSnapshotID_of_decode_error src ns n [] err herr⟩
  · intro src ns n x err h
    exact convertSnapshotID_of_decode_error src ns n x err h

/-- C5, witness: the input is the encoded `paravirt-pv:pvc-1:!!!`; the recursion
reaches the nested snapshot id `!!!`, which is no base64, and the error comes
back through both functions. -/
theorem decode_failure_propagates_witness :
    DecodeString (str "!!!") = none ∧
      (∃ err, decodeSnapshotID { id := EncodeToString corruptNestedExample.String }
        = Outcome.returned ([], some err)) ∧
      (∀ (src : ProtectedEntityID) (ns n : GoString),
        src.GetSnapshotID = { id := EncodeToString corruptNestedExample.String } →
        ∃ err, convertSnapshotID src ns n = Outcome.returned ([], some err)) ∧
      (∀ (src : ProtectedEntityID) (ns n x : GoString) (err : GoError),
        decodeSnapshotID src.GetSnapshotID = Outcome.returned (x, some err) →
        convertSnapshotID src ns n = Outcome.returned
          ([], some (GoError.wrapped "failed to retrieve decoded snapshot id" err))) :=
  ⟨by decide,
    decode_failure_propagates { id := EncodeToString corruptNestedExample.String }
      { id := str "!!!" }
      (DecodeReaches.nested _ _ corruptNestedExample.String corruptNestedExample
        (by decide) (by decide) (by decide) (DecodeReaches.here _))
      (Or.inl (by decide))⟩

/-! ## The orchestration after the clone request -/

/-- What `CreateFromMetadata` does with the reply of the clone request. When it
has reached the clone request (repository name resolved, manifest translated and
marshalled, snapshot id converted) and the clone request has returned an object
without error: for the phase `Failed` and for the phase `Canceled` it returns an
error and issues no further call; the code has no other test of the phase, and
in every other case it goes on to guest materialization, and its outcome is the
outcome of that part. -/
theorem CreateFromMetadata_after_clone (this : ParaVirtProtectedEntityTypeManager)
    (metadata : List Byte) (sourceSnapshotID : ProtectedEntityID)
    (cloneFromSnapshotNamespace cloneFromSnapshotName backupRepositoryName : GoString)
    (calls₀ : List Call) (svcRepositoryName : GoString) (svcPVC : PersistentVolumeClaim)
    (gcPVCNamespace gcPVCName : GoString) (gcPVCLabels : GoMap) (svcPVCData : List Byte)
    (newSnapshotID : GoString) (svcClone : CloneFromSnapshot)
    (hrepo : resolveBackupRepositoryName this backupRepositoryName
      = (calls₀, (none, svcRepositoryName)))
    (htranslate : getSuperPVCandGuestPVCName this metadata
      = Outcome.returned (some svcPVC, gcPVCNamespace, gcPVCName, gcPVCLabels, none))
    (hmarshal : this.ext.Marshal svcPVC = (svcPVCData, none))
    (hconvert : convertSnapshotID sourceSnapshotID svcPVC.Namespace svcPVC.Name
      = Outcome.returned (newSnapshotID, none))
    (hclone : this.ext.CloneFromSnapshopRef
        (cloneRequest this newSnapshotID svcPVCData [] (str "PersistentVolumeClaim")
          svcRepositoryName)
      = (svcClone, none)) :
    (svcClone.Status.Phase = ClonePhase.Failed →
        CreateFromMetadata this metadata sourceSnapshotID cloneFromSnapshotNamespace
            cloneFromSnapshotName backupRepositoryName
          = (calls₀ ++ [Call.cloneFromSnapshotRef (cloneRequest this newSnapshotID svcPVCData []
                (str "PersistentVolumeClaim") svcRepositoryName)],
              Outcome.returned (none, some (GoError.errorf
                "CloneFromSnapshot failed in the Supervisor Cluster")))) ∧
      (svcClone.Status.Phase = ClonePhase.Canceled →
        CreateFromMetadata this metadata sourceSnapshotID cloneFromSnapshotNamespace
            cloneFromSnapshotName backupRepositoryName
          = (calls₀ ++ [Call.cloneFromSnapshotRef (cloneRequest this newSnapshotID svcPVCData []
                (str "PersistentVolumeClaim") svcRepositoryName)],
              Outcome.returned (none, some (GoError.errorf
                "CloneFromSnapshot is canceled in the Supervisor Cluster")))) ∧
      (svcClone.Status.Phase ≠ ClonePhase.Failed →
        svcClone.Status.Phase ≠ ClonePhase.Canceled →
        CreateFromMetadata this metadata sourceSnapshotID cloneFromSnapshotNamespace
            cloneFromSnapshotName backupRepositoryName
          = (calls₀ ++ [Call.cloneFromSnapshotRef (cloneRequest this newSnapshotID svcPVCData []
                (str "PersistentVolumeClaim") svcRepositoryName)]
              ++ (materializeAndReport this svcPVC.Name gcPVCNamespace gcPVCName gcPVCLabels
                    cloneFromSnapshotNamespace cloneFromSnapshotName svcClone).1,
              (materializeAndReport this svcPVC.Name gcPVCNamespace gcPVCName gcPVCLabels
                    cloneFromSnapshotNamespace cloneFromSnapshotName svcClone).2)) := by
  have hFailed : svcClone.Status.Phase = ClonePhase.Failed →
      CreateFromMetadata this metadata sourceSnapshotID cloneFromSnapshotNamespace
          cloneFromSnapshotName backupRepositoryName
        = (calls₀ ++ [Call.cloneFromSnapshotRef (cloneRequest this newSnapshotID svcPVCData []
              (str "PersistentVolumeClaim") svcRepositoryName)],
            Outcome.returned (none, some (GoError.errorf
              "CloneFromSnapshot failed in the Supervisor Cluster"))) := by
    intro hp
    simp [CreateFromMetadata, hrepo, htranslate, hmarshal, hconvert, hclone, hp]
  have hCanceled : svcClone.Status.Phase = ClonePhase.Canceled →
      CreateFromMetadata this metadata sourceSnapshotID cloneFromSnapshotNamespace
          cloneFromSnapshotName backupRepositoryName
        = (calls₀ ++ [Call.cloneFromSnapshotRef (cloneRequest this newSnapshotID svcPVCData []
              (str "PersistentVolumeClaim") svcRepositoryName)],
            Outcome.returned (none, some (GoError.errorf
              "CloneFromSnapshot is canceled in the Supervisor Cluster"))) := by
    intro hp
    simp [CreateFromMetadata, hrepo, htranslate, hmarshal, hconvert, hclone, hp]
  refine ⟨hFailed, hCanceled, ?_⟩
  intro h1 h2
  simp [CreateFromMetadata, hrepo, htranslate, hmarshal, hconvert, hclone, h1, h2]

/-! ## Go maps and the label loop -/

theorem GoMap.get_set_self (m : GoMap) (k v : GoString) : (m.set k v).get k = some v := by
  induction m with
  | nil => simp [GoMap.set, GoMap.get]
  | cons e rest ih =>
      obtain ⟨k', v'⟩ := e
      by_cases h : k' = k
      · simp [GoMap.set, GoMap.get, h]
      · simp [GoMap.set, GoMap.get, h, ih]

theorem GoMap.get_set_other (m : GoMap) (k v k₁ : GoString) (hne : k₁ ≠ k) :
    (m.set k v).get k₁ = m.get k₁ := by
  have hne' : ¬ k = k₁ := fun e => hne e.symm
  induction m with
  | nil => simp [GoMap.set, GoMap.get, hne']
  | cons e rest ih =>
      obtain ⟨k', v'⟩ := e
      by_cases h : k' = k
      · subst h
        simp [GoMap.set, GoMap.get, hne']
      · by_cases h2 : k' = k₁
        · subst h2
          simp [GoMap.set, GoMap.get, h]
        · simp [GoMap.set, GoMap.get, h, h2, ih]

theorem GoMap.get_delete_self (m : GoMap) (k : GoString) : (m.delete k).get k = none := by
  induction m with
  | nil => simp [GoMap.delete, GoMap.get]
  | cons e rest ih =>
      obtain ⟨k', v'⟩ := e
      by_cases h : k' = k
      · simp [GoMap.delete, h, ih]
      · simp [GoMap.delete, h, GoMap.get, ih]

theorem GoMap.get_delete_other (m : GoMap) (k k₁ : GoString) (hne : k₁ ≠ k) :
    (m.delete k).get k₁ = m.get k₁ := by
  have hne' : ¬ k = k₁ := fun e => hne e.symm
  induction m with
  | nil => simp [GoMap.delete, GoMap.get]
  | cons e rest ih =>
      obtain ⟨k', v'⟩ := e
      by_cases h : k' = k
      · subst h
        simp [GoMap.delete, GoMap.get, hne', ih]
      · by_cases h2 : k' = k₁
        · subst h2
          simp [GoMap.delete, h, GoMap.get]
        · simp [GoMap.delete, h, GoMap.get, h2, ih]

/-- A map in which no key is present has no entries. -/
theorem GoMap.eq_nil_of_get_none (m : GoMap) (h : ∀ k, m.get k = none) : m = [] := by
  cases m with
  | nil => rfl
  | cons e rest =>
      obtain ⟨k, v⟩ := e
      have := h k
      simp [GoMap.get] at this

/-- The source map after the label loop: a key that the iteration produces is
gone, every other key is as before. -/
theorem moveLabels_source (todo : List (GoString × GoString)) (src dst : GoMap)
    (k : GoString) :
    (moveLabels todo src dst).1.get k
      = if (GoMap.get todo k).isSome then none else src.get k := by
  induction todo generalizing src dst with
  | nil => simp [moveLabels, GoMap.get]
  | cons e todo ih =>
      obtain ⟨k₀, v₀⟩ := e
      by_cases hk : k₀ = k
      · subst hk
        by_cases hs : (src.get k₀).isSome
        · simp [moveLabels, hs, ih, GoMap.get, GoMap.get_delete_self]
        · have hnone : src.get k₀ = none := by simpa using hs
          simp [moveLabels, hs, ih, GoMap.get, hnone]
      · have hne : k ≠ k₀ := fun e => hk e.symm
        by_cases hs : (src.get k₀).isSome
        · simp [moveLabels, hs, ih, GoMap.get, hk, GoMap.get_delete_other _ _ _ hne]
        · simp [moveLabels, hs, ih, GoMap.get, hk]

/-- The destination map after the label loop: a key that is in the source map
and is produced by the iteration has the value of its entry, every other key is
as before. -/
theorem moveLabels_destination (todo : List (GoString × GoString)) (src dst : GoMap)
    (k : GoString) :
    (moveLabels todo src dst).2.get k
      = if (src.get k).isSome ∧ (GoMap.get todo k).isSome then GoMap.get todo k
        else dst.get k := by
  induction todo generalizing src dst with
  | nil => simp [moveLabels, GoMap.get]
  | cons e todo ih =>
      obtain ⟨k₀, v₀⟩ := e
      by_cases hk : k₀ = k
      · subst hk
        by_cases hs : (src.get k₀).isSome
        · simp [moveLabels, hs, ih, GoMap.get, GoMap.get_delete_self, GoMap.get_set_self]
        · simp [moveLabels, hs, ih, GoMap.get]
      · have hne : k ≠ k₀ := fun e => hk e.symm
        by_cases hs : (src.get k₀).isSome
        · simp [moveLabels, hs, ih, GoMap.get, hk, GoMap.get_delete_other _ _ _ hne,
            GoMap.get_set_other _ _ _ _ hne]
        · simp [moveLabels, hs, ih, GoMap.get, hk]

/-- The label loop of `getSuperPVCandGuestPVCName` leaves no entry in the
labels of the manifest. -/
theorem moveLabels_clears (labels : GoMap) : (moveLabels labels labels []).1 = [] := by
  apply GoMap.eq_nil_of_get_none
  intro k
  rw [moveLabels_source]
  split
  · rfl
  · rename_i h
    simpa using h

/-- The label loop of `getSuperPVCandGuestPVCName` gives every key the value it
has in the labels of the manifest. -/
theorem moveLabels_copies (labels : GoMap) (k : GoString) :
    (moveLabels labels labels []).2.get k = labels.get k := by
  rw [moveLabels_destination]
  split
  · rfl
  · rename_i h
    have : labels.get k = none := by
      cases hg : labels.get k with
      | none => rfl
      | some v => simp [hg] at h
    simp [this, GoMap.get]

theorem GoMap.delete_of_not_mem (m : GoMap) (k : GoString) (h : k ∉ m.map Prod.fst) :
    m.delete k = m := by
  induction m with
  | nil => rfl
  | cons e rest ih =>
      obtain ⟨k', v'⟩ := e
      simp only [List.map_cons, List.mem_cons, not_or] at h
      have h1 : ¬ k' = k := fun e => h.1 e.symm
      simp [GoMap.delete, h1, ih h.2]

theorem GoMap.set_of_not_mem (m : GoMap) (k v : GoString) (h : k ∉ m.map Prod.fst) :
    m.set k v = m ++ [(k, v)] := by
  induction m with
  | nil => rfl
  | cons e rest ih =>
      obtain ⟨k', v'⟩ := e
      simp only [List.map_cons, List.mem_cons, not_or] at h
      have h1 : ¬ k' = k := fun e => h.1 e.symm
      simp [GoMap.set, h1, ih h.2]

/-- On a map with pairwise distinct keys the label loop moves the entries, in
iteration order, behind the entries of the destination. -/
theorem moveLabels_of_nodup (todo : List (GoString × GoString)) (dst : GoMap)
    (hnodup : (todo.map Prod.fst).Nodup)
    (hdisjoint : ∀ k ∈ todo.map Prod.fst, k ∉ dst.map Prod.fst) :
    moveLabels todo todo dst = ([], dst ++ todo) := by
  induction todo generalizing dst with
  | nil => simp [moveLabels]
  | cons e todo ih =>
      obtain ⟨k, v⟩ := e
      simp only [List.map_cons, List.nodup_cons] at hnodup
      have hk : k ∉ dst.map Prod.fst := hdisjoint k (by simp)
      have hdel : GoMap.delete ((k, v) :: todo) k = todo := by
        simp [GoMap.delete, GoMap.delete_of_not_mem todo k hnodup.1]
      have hget : (GoMap.get ((k, v) :: todo) k).isSome = true := by simp [GoMap.get]
      simp only [moveLabels, hget, if_true, hdel, GoMap.set_of_not_mem dst k v hk]
      rw [ih (dst ++ [(k, v)]) hnodup.2]
      · simp
      · intro k' hk' hmem
        simp only [List.map_append, List.map_cons, List.map_nil, List.mem_append,
          List.mem_singleton] at hmem
        rcases hmem with hmem | hmem
        · exact hdisjoint k' (by simp [hk']) hmem
        · subst hmem
          exact hnodup.1 hk'

/-! ## The volume translator on a manifest with storage class -/

/-- The result of `getSuperPVCandGuestPVCName` on a manifest that unmarshals to a
claim `c` with a storage class name and a name of at least four bytes, when the
UUID draw gives `u`. -/
theorem getSuperPVCandGuestPVCName_returns (this : ParaVirtProtectedEntityTypeManager)
    (metadata : List Byte) (c : PersistentVolumeClaim) (u sc : GoString)
    (hU : this.ext.Unmarshal metadata = (c, none)) (hN : this.ext.pvcUUID = (u, none))
    (hS : c.Spec.StorageClassName = some sc) (hlen : 4 ≤ c.Name.length) :
    getSuperPVCandGuestPVCName this metadata
      = Outcome.returned
          (some { c with
              Name := c.Name.take 4 ++ str "-" ++ u
              Namespace := this.svcNamespace
              Labels := [] },
            c.Namespace, c.Name, (moveLabels c.Labels c.Labels []).2, none) := by
  have hlen' : ¬ c.Name.length < 4 := by omega
  simp [getSuperPVCandGuestPVCName, hU, hN, hlen', hS, moveLabels_clears]

/-- Whenever `getSuperPVCandGuestPVCName` returns a target manifest and no
error, the manifest unmarshalled, the UUID was drawn, the origin name has at
least four bytes and the storage class name is set. -/
theorem getSuperPVCandGuestPVCName_success_inv (this : ParaVirtProtectedEntityTypeManager)
    (metadata : List Byte) (target : PersistentVolumeClaim) (g o : GoString) (labels : GoMap)
    (h : getSuperPVCandGuestPVCName this metadata
      = Outcome.returned (some target, g, o, labels, none)) :
    (this.ext.Unmarshal metadata).2 = none ∧ this.ext.pvcUUID.2 = none ∧
      4 ≤ (this.ext.Unmarshal metadata).1.Name.length ∧
      ∃ sc, (this.ext.Unmarshal metadata).1.Spec.StorageClassName = some sc := by
  unfold getSuperPVCandGuestPVCName at h
  by_cases hU : (this.ext.Unmarshal metadata).2 = none
  · by_cases hN : this.ext.pvcUUID.2 = none
    · by_cases hlen : (this.ext.Unmarshal metadata).1.Name.length < 4
      · simp [hU, hN, hlen] at h
      · cases hS : (this.ext.Unmarshal metadata).1.Spec.StorageClassName with
        | none => simp [hU, hN, hlen, hS] at h
        | some sc => exact ⟨hU, hN, by omega, sc, rfl⟩
    · simp [hU, hN] at h
  · simp [hU] at h

/-! ## C6: names and namespaces chosen by the volume translator -/

/-- C6: for every manifest that unmarshals to a claim `c` with a storage class
name, an origin name of at least four bytes and origin namespace `c.Namespace`,
and for the generated UUID `u`, `getSuperPVCandGuestPVCName` returns without
error a target manifest whose name is the first four bytes of the origin name
followed by `"-"` and `u` and whose namespace is the configured supervisor
namespace, together with the origin namespace and the origin name as they were
before the mutation. -/
theorem getSuperPVCandGuestPVCName_naming (this : ParaVirtProtectedEntityTypeManager)
    (metadata : List Byte) (c : PersistentVolumeClaim) (u sc : GoString)
    (hU : this.ext.Unmarshal metadata = (c, none)) (hN : this.ext.pvcUUID = (u, none))
    (hS : c.Spec.StorageClassName = some sc) (hlen : 4 ≤ c.Name.length) :
    ∃ target relocated,
      getSuperPVCandGuestPVCName this metadata
        = Outcome.returned (some target, c.Namespace, c.Name, relocated, none) ∧
      target.Name = c.Name.take 4 ++ str "-" ++ u ∧
      target.Namespace = this.svcNamespace :=
  ⟨_, _, getSuperPVCandGuestPVCName_returns this metadata c u sc hU hN hS hlen, rfl, rfl⟩

/-- C6, witness: the origin claim `gc-ns/data-pvc` with storage class `gc-sc`
and the supervisor namespace `svc-ns` give a target named `data-<uuid>` in
`svc-ns`, and the origin pair `("gc-ns", "data-pvc")`. -/
theorem getSuperPVCandGuestPVCName_naming_witness :
    ∃ target relocated,
      getSuperPVCandGuestPVCName
          (cooperativeManager (originClaim (some (str "gc-sc"))) ClonePhase.Completed) []
        = Outcome.returned (some target, str "gc-ns", str "data-pvc", relocated, none) ∧
      target.Name = str "data" ++ str "-" ++ str "0f4e37de-038d-11eb-adc1-0242ac120002" ∧
      target.Namespace = str "svc-ns" :=
  getSuperPVCandGuestPVCName_naming
    (cooperativeManager (originClaim (some (str "gc-sc"))) ClonePhase.Completed) []
    (originClaim (some (str "gc-sc"))) (str "0f4e37de-038d-11eb-adc1-0242ac120002")
    (str "gc-sc") rfl rfl rfl (by decide)

/-! ## C7: relocation of the labels -/

/-- C7 (as amended): for every manifest that unmarshals to a claim `c` with a
storage class name, a name of at least four bytes and label map `c.Labels`, when
the UUID is drawn, `getSuperPVCandGuestPVCName` returns a relocated-labels map
that has, for every key, the value the key has in `c.Labels` (and is the very
list of entries of `c.Labels` when the keys are pairwise distinct, as they are
in a Go map), and a target manifest whose label map has no entries. -/
theorem getSuperPVCandGuestPVCName_labels (this : ParaVirtProtectedEntityTypeManager)
    (metadata : List Byte) (c : PersistentVolumeClaim) (u sc : GoString)
    (hU : this.ext.Unmarshal metadata = (c, none)) (hN : this.ext.pvcUUID = (u, none))
    (hS : c.Spec.StorageClassName = some sc) (hlen : 4 ≤ c.Name.length) :
    ∃ target relocated,
      getSuperPVCandGuestPVCName this metadata
        = Outcome.returned (some target, c.Namespace, c.Name, relocated, none) ∧
      (∀ k, relocated.get k = c.Labels.get k) ∧
      ((c.Labels.map Prod.fst).Nodup → relocated = c.Labels) ∧
      target.Labels = [] := by
  refine ⟨_, _, getSuperPVCandGuestPVCName_returns this metadata c u sc hU hN hS hlen,
    moveLabels_copies c.Labels, ?_, rfl⟩
  intro hnodup
  rw [moveLabels_of_nodup c.Labels [] hnodup (by simp)]
  simp

/-- C7, witness: the labels `{"app": "x"}` are returned as relocated labels and
the target manifest has the labels `{}`. -/
theorem getSuperPVCandGuestPVCName_labels_witness :
    getSuperPVCandGuestPVCName
        (cooperativeManager (originClaim (some (str "gc-sc"))) ClonePhase.Completed) []
      = Outcome.returned
          (some targetClaimExample, str "gc-ns", str "data-pvc", [(str "app", str "x")], none) ∧
      targetClaimExample.Labels = [] ∧
      ∃ target relocated,
        getSuperPVCandGuestPVCName
            (cooperativeManager (originClaim (some (str "gc-sc"))) ClonePhase.Completed) []
          = Outcome.returned (some target, str "gc-ns", str "data-pvc", relocated, none) ∧
        (∀ k, relocated.get k = (originClaim (some (str "gc-sc"))).Labels.get k) ∧
        (((originClaim (some (str "gc-sc"))).Labels.map Prod.fst).Nodup →
          relocated = (originClaim (some (str "gc-sc"))).Labels) ∧
        target.Labels = [] :=
  ⟨by decide, rfl,
    getSuperPVCandGuestPVCName_labels
      (cooperativeManager (originClaim (some (str "gc-sc"))) ClonePhase.Completed) []
      (originClaim (some (str "gc-sc"))) (str "0f4e37de-038d-11eb-adc1-0242ac120002")
      (str "gc-sc") rfl rfl rfl (by decide)⟩

/-- C7, counterexample to the claim as stated: the manifest of the claim
`gc-ns/db` deserializes and has the storage class `gc-sc` and the labels
`{"app": "x"}`, and `getSuperPVCandGuestPVCName` returns nothing on it: the slice
expression `svcPVC.Name[0:4]` panics. And on the manifest of the claim
`gc-ns/data-pvc` with the same storage class and labels, in a run where the UUID
draw fails, the function returns an error and an empty relocated-labels map. -/
theorem getSuperPVCandGuestPVCName_labels_counterexample :
    (cooperativeManager shortNameClaim ClonePhase.Completed).ext.Unmarshal []
        = (shortNameClaim, none) ∧
      shortNameClaim.Spec.StorageClassName = some (str "gc-sc") ∧
      shortNameClaim.Labels = [(str "app", str "x")] ∧
      getSuperPVCandGuestPVCName (cooperativeManager shortNameClaim ClonePhase.Completed) []
        = Outcome.panic "slice bounds out of range" ∧
      uuidFailingManager.ext.Unmarshal [] = (originClaim (some (str "gc-sc")), none) ∧
      (originClaim (some (str "gc-sc"))).Labels = [(str "app", str "x")] ∧
      getSuperPVCandGuestPVCName uuidFailingManager []
        = Outcome.returned (none, [], [], [],
            some (GoError.wrapped
              "could not generate PVC name in the Supervisor Cluster for Guest Cluster PVC"
              (GoError.external "uuid.NewRandom: read failed"))) := by
  decide

/-! ## C8: what the volume translator leaves unchanged -/

/-- C8: whenever `getSuperPVCandGuestPVCName` succeeds on a manifest, returning
the target manifest `target`, the access modes, the resource requirements, the
volume mode and the storage class name of `target` are those of the
unmarshalled origin manifest, and `target` is the origin manifest with another
name, namespace and label map: every other field is unchanged. -/
theorem getSuperPVCandGuestPVCName_preserves (this : ParaVirtProtectedEntityTypeManager)
    (metadata : List Byte) (target : PersistentVolumeClaim) (g o : GoString) (labels : GoMap)
    (h : getSuperPVCandGuestPVCName this metadata
      = Outcome.returned (some target, g, o, labels, none)) :
    target.Spec.AccessModes = (this.ext.Unmarshal metadata).1.Spec.AccessModes ∧
      target.Spec.Resources = (this.ext.Unmarshal metadata).1.Spec.Resources ∧
      target.Spec.VolumeMode = (this.ext.Unmarshal metadata).1.Spec.VolumeMode ∧
      target.Spec.StorageClassName = (this.ext.Unmarshal metadata).1.Spec.StorageClassName ∧
      target = { (this.ext.Unmarshal metadata).1 with
        Name := target.Name, Namespace := target.Namespace, Labels := target.Labels } := by
  obtain ⟨hU, hN, hlen, sc, hS⟩ :=
    getSuperPVCandGuestPVCName_success_inv this metadata target g o labels h
  have hU' : this.ext.Unmarshal metadata = ((this.ext.Unmarshal metadata).1, none) :=
    Prod.ext rfl hU
  have hN' : this.ext.pvcUUID = (this.ext.pvcUUID.1, none) := Prod.ext rfl hN
  rw [getSuperPVCandGuestPVCName_returns this metadata _ _ sc hU' hN' hS hlen] at h
  simp only [Outcome.returned.injEq, Prod.mk.injEq, Option.some.injEq] at h
  obtain ⟨ht, -⟩ := h
  subst ht
  simp

/-- C8, witness: the translation of the origin claim `gc-ns/data-pvc` keeps
`ReadWriteOnce`, the request of `1Gi`, `Filesystem` and `gc-sc`. -/
theorem getSuperPVCandGuestPVCName_preserves_witness :
    getSuperPVCandGuestPVCName
        (cooperativeManager (originClaim (some (str "gc-sc"))) ClonePhase.Completed) []
      = Outcome.returned
          (some targetClaimExample, str "gc-ns", str "data-pvc", [(str "app", str "x")], none) ∧
      targetClaimExample.Spec.AccessModes = [str "ReadWriteOnce"] ∧
      targetClaimExample.Spec.Resources
        = { Limits := [], Requests := [(str "storage", str "1Gi")] } ∧
      targetClaimExample.Spec.VolumeMode = some (str "Filesystem") ∧
      targetClaimExample.Spec.StorageClassName = some (str "gc-sc") ∧
      targetClaimExample = { originClaim (some (str "gc-sc")) with
        Name := targetClaimExample.Name, Namespace := targetClaimExample.Namespace,
        Labels := targetClaimExample.Labels } :=
  ⟨by decide,
    getSuperPVCandGuestPVCName_preserves
      (cooperativeManager (originClaim (some (str "gc-sc"))) ClonePhase.Completed) []
      targetClaimExample (str "gc-ns") (str "data-pvc") [(str "app", str "x")] (by decide)⟩

/-! ## C9: the volume manifest of `createGuestPV` -/

/-- C9: for every origin namespace `g`, origin name `o`, supervisor claim `s`,
provisioner name `d` and generated UUID `u`, `createGuestPV` issues exactly one
call, the creation of a volume manifest whose name is `"pvc-" ++ u`, whose CSI
driver is `d`, whose volume handle is the name of `s`, whose claim reference is
`(g, o)`, whose access modes are the access modes of the spec of `s` and whose
capacity is the capacity of the status of `s`. -/
theorem createGuestPV_manifest (this : ParaVirtProtectedEntityTypeManager)
    (g o : GoString) (s : PersistentVolumeClaim) (d u : GoString)
    (hN : this.ext.pvUUID = (u, none)) :
    ∃ pv, (createGuestPV this g o s d).1 = [Call.gcCreatePV pv] ∧
      pv.Name = str "pvc-" ++ u ∧
      pv.Spec.CSI = some { Driver := d, VolumeHandle := s.Name } ∧
      pv.Spec.ClaimRef = some { Namespace := g, Name := o } ∧
      pv.Spec.AccessModes = s.Spec.AccessModes ∧
      pv.Spec.Capacity = s.Status.Capacity := by
  refine ⟨{ Name := str "pvc-" ++ u
            Spec :=
              { AccessModes := s.Spec.AccessModes
                Capacity := s.Status.Capacity
                CSI := some { Driver := d, VolumeHandle := s.Name }
                ClaimRef := some { Namespace := g, Name := o } } },
    ?_, rfl, rfl, rfl, rfl, rfl⟩
  simp [createGuestPV, hN]

/-- C9, witness: the guest volume for the origin claim `gc-ns/data-pvc` and the
bound supervisor claim of the example run. -/
theorem createGuestPV_manifest_witness :
    ∃ pv, (createGuestPV
          (cooperativeManager (originClaim (some (str "gc-sc"))) ClonePhase.Completed)
          (str "gc-ns") (str "data-pvc") boundClaimExample CSIDriverName).1
        = [Call.gcCreatePV pv] ∧
      pv.Name = str "pvc-" ++ str "15d0ac8f-418f-4e5d-99c1-b127263e2058" ∧
      pv.Spec.CSI = some { Driver := CSIDriverName, VolumeHandle := boundClaimExample.Name } ∧
      pv.Spec.ClaimRef = some { Namespace := str "gc-ns", Name := str "data-pvc" } ∧
      pv.Spec.AccessModes = boundClaimExample.Spec.AccessModes ∧
      pv.Spec.Capacity = boundClaimExample.Status.Capacity :=
  createGuestPV_manifest
    (cooperativeManager (originClaim (some (str "gc-sc"))) ClonePhase.Completed)
    (str "gc-ns") (str "data-pvc") boundClaimExample CSIDriverName
    (str "15d0ac8f-418f-4e5d-99c1-b127263e2058") rfl

/-! ## The claim manifest of `createGuestPVC` -/

/-- For every origin namespace `g`, origin name `o`, relocated label map `L`,
volume name `v` and supervisor claim `s`, `createGuestPVC` submits, in namespace
`g`, a claim manifest with namespace `g`, name `o`, labels `L`,
`spec.volumeName` equal to `v`, and access modes, resources and volume mode of
the spec of `s`, then waits for the claim `g/o` to be bound, and returns that
manifest when the wait succeeds. -/
theorem createGuestPVC_manifest (this : ParaVirtProtectedEntityTypeManager)
    (g o : GoString) (L : GoMap) (v : GoString) (s : PersistentVolumeClaim) :
    (createGuestPVC this g o L v s).1
        = [Call.gcCreatePVC g (guestClaimManifest g o L v s), Call.gcWaitForClaimBound g o] ∧
      (guestClaimManifest g o L v s).Namespace = g ∧
      (guestClaimManifest g o L v s).Name = o ∧
      (guestClaimManifest g o L v s).Labels = L ∧
      (guestClaimManifest g o L v s).Spec.VolumeName = v ∧
      (guestClaimManifest g o L v s).Spec.AccessModes = s.Spec.AccessModes ∧
      (guestClaimManifest g o L v s).Spec.Resources = s.Spec.Resources ∧
      (guestClaimManifest g o L v s).Spec.VolumeMode = s.Spec.VolumeMode ∧
      (this.ext.WaitForPersistentVolumeClaimPhase g o = none →
        (createGuestPVC this g o L v s).2 = (some (guestClaimManifest g o L v s), none)) := by
  refine ⟨?_, rfl, rfl, rfl, rfl, rfl, rfl, rfl, ?_⟩
  · unfold createGuestPVC guestClaimManifest
    dsimp only
    split <;> rfl
  · intro hwait
    simp [createGuestPVC, guestClaimManifest, hwait]

/-! ## C11: errors of the volume creation call -/

/-- Whatever the guest cluster replies to the creation of the volume,
`createGuestPV` returns the `nil` error when the UUID draw succeeds. -/
theorem createGuestPV_error_nil (this : ParaVirtProtectedEntityTypeManager)
    (g o : GoString) (s : PersistentVolumeClaim) (d : GoString)
    (hN : this.ext.pvUUID.2 = none) :
    (createGuestPV this g o s d).2 = (some (this.ext.gcCreatePV
        { Name := str "pvc-" ++ this.ext.pvUUID.1
          Spec :=
            { AccessModes := s.Spec.AccessModes
              Capacity := s.Status.Capacity
              CSI := some { Driver := d, VolumeHandle := s.Name }
              ClaimRef := some { Namespace := g, Name := o } } }).1, none) := by
  simp [createGuestPV, hN]

/-- C11, the code at the failing input: the guest cluster refuses the creation
of the volume with an error that is not `AlreadyExists`; `createGuestPV` returns
the zero volume and the `nil` error, and the orchestration goes on: it submits
the guest claim `gc-ns/data-pvc` with an empty `spec.volumeName` and returns
success. -/
theorem createGuestPV_swallows_creation_error :
    apierrs.IsAlreadyExists (some (GoError.external "persistentvolumes is forbidden")) = false ∧
      (createGuestPV createRefusedManager (str "gc-ns") (str "data-pvc") boundClaimExample
          CSIDriverName).2 = (some zeroPersistentVolume, none) ∧
      Call.gcCreatePVC (str "gc-ns")
          { Name := str "data-pvc"
            Namespace := str "gc-ns"
            Labels := [(str "app", str "x")]
            Annotations := []
            Spec :=
              { AccessModes := [str "ReadWriteOnce"]
                Resources := { Limits := [], Requests := [(str "storage", str "1Gi")] }
                VolumeName := []
                StorageClassName := none
                VolumeMode := some (str "Filesystem") }
            Status := { Phase := [], Capacity := [] } } ∈
        (CreateFromMetadata createRefusedManager [] sourceSnapshotExample (str "gc-ns")
          (str "clone-req") (str "br-1")).1 ∧
      (CreateFromMetadata createRefusedManager [] sourceSnapshotExample (str "gc-ns")
          (str "clone-req") (str "br-1")).2
        = Outcome.returned
            (some { id := NewProtectedEntityIDFromPVCName (str "gc-ns") (str "data-pvc") },
              none) := by
  decide

/-! ## C12: what the status propagator persists -/

theorem CloneHeap.read_append_last (heap : CloneHeap) (v : CloneFromSnapshot) :
    CloneHeap.read (heap ++ [v]) heap.length = some v := by
  induction heap with
  | nil => rfl
  | cons x rest ih => simpa [CloneHeap.read] using ih

theorem CloneHeap.read_append_lt (heap : CloneHeap) (v : CloneFromSnapshot) (p : Nat)
    (h : p < heap.length) : CloneHeap.read (heap ++ [v]) p = CloneHeap.read heap p := by
  induction heap generalizing p with
  | nil => simp at h
  | cons x rest ih =>
      cases p with
      | zero => rfl
      | succ p =>
          simp only [List.length_cons, Nat.add_lt_add_iff_right] at h
          simpa [CloneHeap.read] using ih p h

theorem CloneHeap.write_append_last (heap : CloneHeap) (v : CloneFromSnapshot)
    (f : CloneFromSnapshot → CloneFromSnapshot) :
    CloneHeap.write (heap ++ [v]) heap.length f = heap ++ [f v] := by
  induction heap with
  | nil => rfl
  | cons x rest ih => simpa [CloneHeap.write] using ih

/-- C12: for every heap, every origin-side object `c` that the guest cluster
returns without error and every supervisor-side object `s`,
`updateCloneFromSnapshotStatus` returns after two calls, the `Get` and the
status update of an object `persisted` that is `c` with the status phase, the
status message and the status resource handle of `s`: namespace, name, spec
and every other status field are those of `c`. After the call the cell of the
fetched object still holds `c`, and the cells that existed before are
unchanged. The calls and the error are those of the embedding without heap. -/
theorem updateCloneFromSnapshotStatus_persists (this : ParaVirtProtectedEntityTypeManager)
    (heap : CloneHeap) (ns name : GoString) (c s : CloneFromSnapshot)
    (hget : this.ext.gcGetClone ns name = (c, none)) :
    ∃ heap' persisted,
      updateCloneFromSnapshotStatusOnHeap this heap ns name s
        = Outcome.returned (heap', heap.length,
            [Call.gcGetClone ns name, Call.gcUpdateCloneStatus ns persisted],
            (this.ext.gcUpdateCloneStatus ns persisted).2) ∧
      persisted = { c with
        Status := { c.Status with
          Phase := s.Status.Phase
          Message := s.Status.Message
          ResourceHandle := s.Status.ResourceHandle } } ∧
      persisted.Namespace = c.Namespace ∧ persisted.Name = c.Name ∧
      persisted.Spec = c.Spec ∧
      heap'.read heap.length = some c ∧
      (∀ p, p < heap.length → heap'.read p = heap.read p) ∧
      updateCloneFromSnapshotStatus this ns name s
        = ([Call.gcGetClone ns name, Call.gcUpdateCloneStatus ns persisted],
            (this.ext.gcUpdateCloneStatus ns persisted).2) := by
  refine ⟨heap ++ [c] ++ [{ c with
      Status := { c.Status with
        Phase := s.Status.Phase
        Message := s.Status.Message
        ResourceHandle := s.Status.ResourceHandle } }],
    { c with
      Status := { c.Status with
        Phase := s.Status.Phase
        Message := s.Status.Message
        ResourceHandle := s.Status.ResourceHandle } }, ?_, rfl, rfl, rfl, rfl, ?_, ?_, ?_⟩
  · have hlen : (heap ++ [c]).length = heap.length + 1 := by simp
    have hread : CloneHeap.read (heap ++ [c]) heap.length = some c :=
      CloneHeap.read_append_last heap c
    have hw := CloneHeap.write_append_last (heap ++ [c])
    have hr := CloneHeap.read_append_last (heap ++ [c])
    simp only [hlen] at hw hr
    simp only [updateCloneFromSnapshotStatusOnHeap, CloneHeap.alloc, hget, hread, hlen, hw, hr]
    by_cases herr : (this.ext.gcUpdateCloneStatus ns { c with
        Status := { c.Status with
          Phase := s.Status.Phase
          Message := s.Status.Message
          ResourceHandle := s.Status.ResourceHandle } }).2 = none
    · simp [herr]
    · simp [herr]
  · have h1 : heap.length < (heap ++ [c]).length := by simp
    rw [CloneHeap.read_append_lt _ _ _ h1]
    exact CloneHeap.read_append_last heap c
  · intro p hp
    have h1 : p < (heap ++ [c]).length := by simp; omega
    rw [CloneHeap.read_append_lt _ _ _ h1, CloneHeap.read_append_lt _ _ _ hp]
  · by_cases herr : (this.ext.gcUpdateCloneStatus ns { c with
        Status := { c.Status with
          Phase := s.Status.Phase
          Message := s.Status.Message
          ResourceHandle := s.Status.ResourceHandle } }).2 = none
    · simp [updateCloneFromSnapshotStatus, hget, herr]
    · simp [updateCloneFromSnapshotStatus, hget, herr]

/-- C12, witness: the origin-side object `gc-ns/clone-req` in phase `Pending` and
the supervisor-side object in phase `Completed` with a message and a resource
handle, on the empty heap. -/
theorem updateCloneFromSnapshotStatus_persists_witness :
    (cooperativeManager (originClaim (some (str "gc-sc"))) ClonePhase.Completed).ext.gcGetClone
        (str "gc-ns") (str "clone-req") = (fetchedCloneExample, none) ∧
      ∃ heap' persisted,
        updateCloneFromSnapshotStatusOnHeap
            (cooperativeManager (originClaim (some (str "gc-sc"))) ClonePhase.Completed)
            [] (str "gc-ns") (str "clone-req") completedCloneExample
          = Outcome.returned (heap', ([] : CloneHeap).length,
              [Call.gcGetClone (str "gc-ns") (str "clone-req"),
                Call.gcUpdateCloneStatus (str "gc-ns") persisted],
              ((cooperativeManager (originClaim (some (str "gc-sc")))
                ClonePhase.Completed).ext.gcUpdateCloneStatus (str "gc-ns") persisted).2) ∧
        persisted = { fetchedCloneExample with
          Status := { fetchedCloneExample.Status with
            Phase := completedCloneExample.Status.Phase
            Message := completedCloneExample.Status.Message
            ResourceHandle := completedCloneExample.Status.ResourceHandle } } ∧
        persisted.Namespace = fetchedCloneExample.Namespace ∧
        persisted.Name = fetchedCloneExample.Name ∧
        persisted.Spec = fetchedCloneExample.Spec ∧
        heap'.read ([] : CloneHeap).length = some fetchedCloneExample ∧
        (∀ p, p < ([] : CloneHeap).length → heap'.read p = CloneHeap.read [] p) ∧
        updateCloneFromSnapshotStatus
            (cooperativeManager (originClaim (some (str "gc-sc"))) ClonePhase.Completed)
            (str "gc-ns") (str "clone-req") completedCloneExample
          = ([Call.gcGetClone (str "gc-ns") (str "clone-req"),
                Call.gcUpdateCloneStatus (str "gc-ns") persisted],
              ((cooperativeManager (originClaim (some (str "gc-sc")))
                ClonePhase.Completed).ext.gcUpdateCloneStatus (str "gc-ns") persisted).2) :=
  ⟨rfl,
    updateCloneFromSnapshotStatus_persists
      (cooperativeManager (originClaim (some (str "gc-sc"))) ClonePhase.Completed)
      [] (str "gc-ns") (str "clone-req") fetchedCloneExample completedCloneExample rfl⟩

/-! ## C13: the backup repository name of the clone request -/

/-- The calls of `createGuestPV` are volume creations. -/
theorem createGuestPV_calls (this : ParaVirtProtectedEntityTypeManager) (g o : GoString)
    (s : PersistentVolumeClaim) (d : GoString) (call : Call)
    (h : call ∈ (createGuestPV this g o s d).1) : ∃ pv, call = Call.gcCreatePV pv := by
  unfold createGuestPV at h
  dsimp only at h
  split at h
  · simp at h
  · simp only [List.mem_singleton] at h
    exact ⟨_, h⟩

/-- The calls of `updateCloneFromSnapshotStatus` are a `Get` and a status
update of a clone object. -/
theorem updateCloneFromSnapshotStatus_calls (this : ParaVirtProtectedEntityTypeManager)
    (ns name : GoString) (s : CloneFromSnapshot) (call : Call)
    (h : call ∈ (updateCloneFromSnapshotStatus this ns name s).1) :
    call = Call.gcGetClone ns name ∨ ∃ clone, call = Call.gcUpdateCloneStatus ns clone := by
  unfold updateCloneFromSnapshotStatus at h
  dsimp only at h
  split at h
  · simp only [List.mem_singleton] at h
    exact Or.inl h
  · split at h <;>
      · simp only [List.cons_append, List.nil_append, List.mem_cons, List.mem_singleton,
          List.not_mem_nil, or_false] at h
        rcases h with h | h
        · exact Or.inl h
        · exact Or.inr ⟨_, h⟩

/-- No call of the guest materialization and status report is a clone request
or a repository lookup. -/
theorem materializeAndReport_calls (this : ParaVirtProtectedEntityTypeManager)
    (svcPVCName g o : GoString) (L : GoMap) (cns cname : GoString) (svcClone : CloneFromSnapshot)
    (call : Call)
    (h : call ∈ (materializeAndReport this svcPVCName g o L cns cname svcClone).1) :
    (∀ request, call ≠ Call.cloneFromSnapshotRef request) ∧
      (∀ name, call ≠ Call.getBackupRepository name) := by
  have hpv := createGuestPV_calls this g o
    (this.ext.svcGetPVC this.svcNamespace svcPVCName).1 CSIDriverName call
  have hupd := updateCloneFromSnapshotStatus_calls this cns cname svcClone call
  unfold materializeAndReport at h
  dsimp only at h
  have key : (call = Call.svcGetPVC this.svcNamespace svcPVCName ∨
      (∃ pv, call = Call.gcCreatePV pv) ∨
      (∃ ns claim, call = Call.gcCreatePVC ns claim) ∨
      (∃ ns name, call = Call.gcWaitForClaimBound ns name) ∨
      call = Call.gcGetClone cns cname ∨
      (∃ clone, call = Call.gcUpdateCloneStatus cns clone) ∨
      (∃ id, call = Call.newProtectedEntity id)) := by
    have hclaim : ∀ v, call ∈ (createGuestPVC this g o L v
        (this.ext.svcGetPVC this.svcNamespace svcPVCName).1).1 →
        (∃ ns claim, call = Call.gcCreatePVC ns claim) ∨
          (∃ ns name, call = Call.gcWaitForClaimBound ns name) := by
      intro v hv
      unfold createGuestPVC at hv
      dsimp only at hv
      split at hv <;>
        · simp only [List.mem_cons, List.mem_singleton, List.not_mem_nil, or_false] at hv
          rcases hv with hv | hv
          · exact Or.inl ⟨_, _, hv⟩
          · exact Or.inr ⟨_, _, hv⟩
    have hpe : ∀ id, call ∈ (GetProtectedEntity this id).1 →
        ∃ id, call = Call.newProtectedEntity id := by
      intro id hid
      unfold GetProtectedEntity at hid
      dsimp only at hid
      split at hid <;>
        · simp only [List.mem_singleton] at hid
          exact ⟨_, hid⟩
    repeat' split at h
    all_goals simp only [List.mem_append, List.mem_singleton, or_assoc] at h
    all_goals
      first
        | (rcases h with h | h | h | h | h
           · exact Or.inl h
           · exact Or.inr (Or.inl (hpv h))
           · rcases hclaim _ h with h' | h'
             · exact Or.inr (Or.inr (Or.inl h'))
             · exact Or.inr (Or.inr (Or.inr (Or.inl h')))
           · rcases hupd h with h' | h'
             · exact Or.inr (Or.inr (Or.inr (Or.inr (Or.inl h'))))
             · exact Or.inr (Or.inr (Or.inr (Or.inr (Or.inr (Or.inl h')))))
           · exact Or.inr (Or.inr (Or.inr (Or.inr (Or.inr (Or.inr (hpe _ h)))))))
        | (rcases h with h | h | h | h
           · exact Or.inl h
           · exact Or.inr (Or.inl (hpv h))
           · rcases hclaim _ h with h' | h'
             · exact Or.inr (Or.inr (Or.inl h'))
             · exact Or.inr (Or.inr (Or.inr (Or.inl h')))
           · rcases hupd h with h' | h'
             · exact Or.inr (Or.inr (Or.inr (Or.inr (Or.inl h'))))
             · exact Or.inr (Or.inr (Or.inr (Or.inr (Or.inr (Or.inl h'))))))
        | (rcases h with h | h | h
           · exact Or.inl h
           · exact Or.inr (Or.inl (hpv h))
           · rcases hclaim _ h with h' | h'
             · exact Or.inr (Or.inr (Or.inl h'))
             · exact Or.inr (Or.inr (Or.inr (Or.inl h'))))
        | (rcases h with h | h
           · exact Or.inl h
           · exact Or.inr (Or.inl (hpv h)))
        | exact Or.inl h
  constructor
  · intro request hreq
    subst hreq
    simp at key
  · intro name hname
    subst hname
    simp at key

/-- The calls of the repository name resolution: none, or the one lookup. -/
theorem resolveBackupRepositoryName_calls (this : ParaVirtProtectedEntityTypeManager)
    (b : GoString) :
    (resolveBackupRepositoryName this b).1
      = if b ≠ [] ∧ b ≠ WithoutBackupRepository then [Call.getBackupRepository b] else [] := by
  unfold resolveBackupRepositoryName
  dsimp only
  split
  · split
    · rfl
    · split <;> rfl
  · rfl

/-- Every call of `CreateFromMetadata` is a call of the repository name
resolution, or the clone request with the resolved repository name, or a call of
the guest materialization and status report. -/
theorem CreateFromMetadata_calls (this : ParaVirtProtectedEntityTypeManager)
    (metadata : List Byte) (src : ProtectedEntityID) (cns cname b : GoString) (call : Call)
    (h : call ∈ (CreateFromMetadata this metadata src cns cname b).1) :
    call ∈ (resolveBackupRepositoryName this b).1 ∨
      ((resolveBackupRepositoryName this b).2.1 = none ∧
        ∃ newSnapshotID svcPVCData, call = Call.cloneFromSnapshotRef
          (cloneRequest this newSnapshotID svcPVCData [] (str "PersistentVolumeClaim")
            (resolveBackupRepositoryName this b).2.2)) ∨
      ∃ svcPVCName g o L svcClone,
        call ∈ (materializeAndReport this svcPVCName g o L cns cname svcClone).1 := by
  unfold CreateFromMetadata at h
  dsimp only at h
  split at h
  · exact Or.inl h
  · rename_i name hrepo
    have h1 : (resolveBackupRepositoryName this b).2.1 = none := by rw [hrepo]
    have h2 : (resolveBackupRepositoryName this b).2.2 = name := by rw [hrepo]
    rw [h2]
    repeat' split at h
    all_goals simp only [List.mem_append, List.mem_singleton, or_assoc] at h
    all_goals
      first
        | exact Or.inl h
        | (rcases h with h | h
           · exact Or.inl h
           · exact Or.inr (Or.inl ⟨h1, _, _, h⟩))
        | (rcases h with h | h | h
           · exact Or.inl h
           · exact Or.inr (Or.inl ⟨h1, _, _, h⟩)
           · exact Or.inr (Or.inr ⟨_, _, _, _, _, h⟩))

/-- C13: the repository name of the clone request. For every input name `b`:
when `b` is empty or the sentinel `"without-backup-repository"` no lookup is made
and the name is `b`; otherwise the lookup is made, and the name is the looked-up
supervisor name `r` when the lookup succeeds with `r` non-empty and not the
sentinel, it is `b` when the lookup succeeds with `r` empty or the sentinel, and
`CreateFromMetadata` returns the wrapped error, after the lookup as its only
call, when the lookup fails. Every clone request that `CreateFromMetadata`
issues carries the name so resolved. -/
theorem CreateFromMetadata_repository_name (this : ParaVirtProtectedEntityTypeManager)
    (metadata : List Byte) (src : ProtectedEntityID) (cns cname b : GoString) :
    ((b = [] ∨ b = WithoutBackupRepository) →
        resolveBackupRepositoryName this b = ([], (none, b))) ∧
      (b ≠ [] → b ≠ WithoutBackupRepository → ∀ r,
        this.ext.GetBackupRepositoryFromBackupRepositoryName b = (r, none) →
        r ≠ [] → r ≠ WithoutBackupRepository →
        resolveBackupRepositoryName this b = ([Call.getBackupRepository b], (none, r))) ∧
      (b ≠ [] → b ≠ WithoutBackupRepository → ∀ r,
        this.ext.GetBackupRepositoryFromBackupRepositoryName b = (r, none) →
        (r = [] ∨ r = WithoutBackupRepository) →
        resolveBackupRepositoryName this b = ([Call.getBackupRepository b], (none, b))) ∧
      (b ≠ [] → b ≠ WithoutBackupRepository → ∀ r e,
        this.ext.GetBackupRepositoryFromBackupRepositoryName b = (r, some e) →
        CreateFromMetadata this metadata src cns cname b
          = ([Call.getBackupRepository b], Outcome.returned
              (none, some (GoError.wrapped "failed to retrieve backupRepository" e)))) ∧
      (∀ request,
        Call.cloneFromSnapshotRef request ∈ (CreateFromMetadata this metadata src cns cname b).1 →
        (resolveBackupRepositoryName this b).2.1 = none ∧
          request.backupRepositoryName = (resolveBackupRepositoryName this b).2.2) := by
  refine ⟨?_, ?_, ?_, ?_, ?_⟩
  · intro hb
    rcases hb with hb | hb <;> simp [resolveBackupRepositoryName, hb]
  · intro h1 h2 r hr h3 h4
    simp [resolveBackupRepositoryName, h1, h2, hr, h3, h4]
  · intro h1 h2 r hr h3
    rcases h3 with h3 | h3 <;> simp [resolveBackupRepositoryName, h1, h2, hr, h3]
  · intro h1 h2 r e hr
    simp [CreateFromMetadata, resolveBackupRepositoryName, h1, h2, hr, errors.Wrap]
  · intro request hreq
    rcases CreateFromMetadata_calls this metadata src cns cname b _ hreq with h | h | h
    · rw [resolveBackupRepositoryName_calls] at h
      split at h <;> simp at h
    · obtain ⟨h1, newSnapshotID, svcPVCData, h2⟩ := h
      simp only [Call.cloneFromSnapshotRef.injEq] at h2
      subst h2
      exact ⟨h1, rfl⟩
    · obtain ⟨svcPVCName, g, o, L, svcClone, h⟩ := h
      exact absurd rfl ((materializeAndReport_calls this svcPVCName g o L cns cname svcClone _ h).1
        request)

/-! ## C14: no cap on the depth of the recursion -/

/-- Decoding the identifier nested `n + 1` levels deep takes `n + 1` rounds and
gives the encoded terminal identifier. -/
theorem decode_nestedIdentifier (n : Nat) :
    decodeSnapshotID { id := EncodeToString (nestedIdentifier n).String }
        = Outcome.returned (EncodeToString ivdExample.String, none) ∧
      decodeRounds { id := EncodeToString (nestedIdentifier n).String } = some (n + 1) := by
  induction n with
  | zero => exact chain_last_step ivdExample (by decide) rfl (by decide)
  | succ n ih =>
      have hnames : ColonFreeNames (nestedIdentifier (n + 1)) := by
        simp only [nestedIdentifier, ColonFreeNames]
        decide
      have htype : (nestedIdentifier (n + 1)).peType ≠ str "ivd" := by
        simp only [nestedIdentifier]
        decide
      have hstep := chain_inner_step (nestedIdentifier (n + 1)) (nestedIdentifier n) hnames
        htype rfl
      rw [hstep.1, hstep.2, ih.1, ih.2]
      simp

/-- C14 (as amended): `decodeSnapshotID` has no cap on the depth of its
recursion. For every `n`, on the input nested `n + 1` levels deep (`n` layers
that are not terminal, each carrying the base64 of the next layer, around the
terminal `ivd` identifier) it recurses through all layers and succeeds: it
returns the encoded terminal identifier and no error, after `n + 1` decode
rounds. -/
theorem decodeSnapshotID_unbounded_depth (n : Nat) :
    decodeSnapshotID { id := EncodeToString (nestedIdentifier n).String }
        = Outcome.returned (EncodeToString ivdExample.String, none) ∧
      decodeRounds { id := EncodeToString (nestedIdentifier n).String } = some (n + 1) :=
  decode_nestedIdentifier n

/-- C14, the claim as stated is false: there is no bound `D` such that
`decodeSnapshotID` returns an error on every input nested more than `D` levels
deep. -/
theorem decodeSnapshotID_depth_cap_counterexample :
    ¬ ∃ D : Nat, ∀ n : Nat, D < n →
      ∃ y err, decodeSnapshotID { id := EncodeToString (nestedIdentifier n).String }
        = Outcome.returned (y, some err) := by
  rintro ⟨D, hD⟩
  obtain ⟨y, err, h⟩ := hD (D + 1) (Nat.lt_succ_self D)
  rw [(decode_nestedIdentifier (D + 1)).1] at h
  simp at h

/-! ## C15: the last component of the cross-cluster snapshot id -/

/-- C15 (as amended): the last component of the cross-cluster snapshot id built
by `convertSnapshotID` is the encoded form, the raw standard base64 of the
canonical string, of the terminal identifier. For every source identifier whose
snapshot id is the encoded canonical string of an identifier `t` with provider
type `"ivd"` and parts without colon, every target namespace `ns` and target
claim name `n`, the result is `"pvc:" ++ ns ++ "/" ++ n ++ ":"` followed by the
encoded canonical string of `t`. -/
theorem convertSnapshotID_encoded_terminal (src t : ProtectedEntityID) (ns n : GoString)
    (hnames : ColonFreeNames t) (htype : t.peType = str "ivd")
    (hsnap : colon ∉ t.snapshotID.id)
    (hsrc : src.GetSnapshotID = { id := EncodeToString t.String }) :
    convertSnapshotID src ns n
      = Outcome.returned
          (str "pvc:" ++ ns ++ str "/" ++ n ++ str ":" ++ EncodeToString t.String, none) := by
  have hdecode := (chain_last_step t hnames htype hsnap).1
  simp [convertSnapshotID, hsrc, hdecode]

set_option maxRecDepth 100000 in
/-- C15, witness: for the source snapshot id that is the base64 of
`ivd:1e46bb4d-...:ea4e347a-...`, target namespace `svc-ns` and target claim name
`data-abc123`, the result is `pvc:svc-ns/data-abc123:aXZkOjFlNDZi...`. -/
theorem convertSnapshotID_encoded_terminal_witness :
    EncodeToString fcdSnapshotExample.String
        = str ("aXZkOjFlNDZiYjRkLWIzZjAtNDBkNS05Y2E4LTNiYWU2ZjU5NTk1NTplYTRlMzQ3YS1iZTI5" ++
            "LTRlNWItYTYyNi03MjViODNmMTY4ZmM") ∧
      convertSnapshotID fcdSourceExample (str "svc-ns") (str "data-abc123")
        = Outcome.returned
            (str "pvc:" ++ str "svc-ns" ++ str "/" ++ str "data-abc123" ++ str ":"
              ++ EncodeToString fcdSnapshotExample.String, none) :=
  ⟨by decide,
    convertSnapshotID_encoded_terminal fcdSourceExample fcdSnapshotExample (str "svc-ns")
      (str "data-abc123") (by decide) rfl (by decide) rfl⟩

set_option maxRecDepth 100000 in
/-- C15, counterexample to the claim as stated: for the source snapshot id that
is the base64 of `ivd:1e46bb4d-...:ea4e347a-...`, target namespace `svc-ns` and
target claim name `data-abc123`, the result of `convertSnapshotID` ends with the
base64 text `aXZkOjFlNDZi...`, and is not the string
`pvc:svc-ns/data-abc123:ivd:1e46bb4d-...:ea4e347a-...` with the identifier in
plain text. -/
theorem convertSnapshotID_plain_text_counterexample :
    convertSnapshotID fcdSourceExample (str "svc-ns") (str "data-abc123")
        = Outcome.returned
            (str ("pvc:svc-ns/data-abc123:aXZkOjFlNDZiYjRkLWIzZjAtNDBkNS05Y2E4LTNiYWU2ZjU5" ++
              "NTk1NTplYTRlMzQ3YS1iZTI5LTRlNWItYTYyNi03MjViODNmMTY4ZmM"), none) ∧
      convertSnapshotID fcdSourceExample (str "svc-ns") (str "data-abc123")
        ≠ Outcome.returned
            (str ("pvc:svc-ns/data-abc123:ivd:1e46bb4d-b3f0-40d5-9ca8-3bae6f595955:" ++
              "ea4e347a-be29-4e5b-a626-725b83f168fc"), none) := by
  decide

/-! ## C16: two runs of the guest volume materializer -/

theorem GuestStore.createPV_fresh (store : GuestStore) (pv : PersistentVolume)
    (h : ∀ v ∈ store.volumes, v.Name ≠ pv.Name) :
    store.createPV pv = ({ store with volumes := store.volumes ++ [pv] }, (pv, none)) := by
  have hany : store.volumes.any (fun v => decide (v.Name = pv.Name)) = false := by
    simp only [List.any_eq_false, decide_eq_true_eq]
    exact h
  simp [GuestStore.createPV, hany]

theorem GuestStore.createPVC_fresh (store : GuestStore) (ns : GoString)
    (pvc : PersistentVolumeClaim)
    (h : ∀ c ∈ store.claims, ¬ (c.Namespace = ns ∧ c.Name = pvc.Name)) :
    store.createPVC ns pvc = ({ store with claims := store.claims ++ [pvc] }, (pvc, none)) := by
  have hany : store.claims.any (fun c => decide (c.Namespace = ns ∧ c.Name = pvc.Name))
      = false := by
    simp only [List.any_eq_false, decide_eq_true_eq]
    exact h
  unfold GuestStore.createPVC
  rw [if_neg (by rw [hany]; simp)]

theorem GuestStore.createPVC_exists (store : GuestStore) (ns : GoString)
    (pvc c : PersistentVolumeClaim) (hc : c ∈ store.claims)
    (h : c.Namespace = ns ∧ c.Name = pvc.Name) :
    store.createPVC ns pvc = (store, (zeroPersistentVolumeClaim, some GoError.alreadyExists)) := by
  have hany : store.claims.any (fun c => decide (c.Namespace = ns ∧ c.Name = pvc.Name))
      = true := by
    simp only [List.any_eq_true, decide_eq_true_eq]
    exact ⟨c, hc, h⟩
  unfold GuestStore.createPVC
  rw [if_pos hany]

/-- The store after one run of the materializer: the store after the creation
of the volume manifest and then of the claim manifest, the claim naming the
volume that the creation of the volume returned. -/
theorem materializeOnStore_store (this : ParaVirtProtectedEntityTypeManager)
    (store : GuestStore) (u g o : GoString) (L : GoMap) (s : PersistentVolumeClaim)
    (d : GoString) :
    (materializeOnStore this store u g o L s d).1
      = ((store.createPV (guestVolumeManifest u g o s d)).1.createPVC g
          (guestClaimManifest g o L (store.createPV (guestVolumeManifest u g o s d)).2.1.Name
            s)).1 := by
  unfold materializeOnStore
  simp only [createGuestPV, onStore, guestVolumeManifest, createGuestPVC, guestClaimManifest,
    ne_eq, not_true_eq_false, if_false, List.foldl_cons, List.foldl_nil, GuestStore.apply]
  split <;> rfl

/-- C16 (as amended): on a guest-cluster store that holds no volume named after
the UUIDs `u₁`, `u₂` and no claim `g/o`, two runs of the materializer with the
same arguments, drawing the distinct UUIDs `u₁` and `u₂`, leave the store with
two more volumes, `pvc-<u₁>` and `pvc-<u₂>`, two different objects that both
carry the claim reference `g/o`, and with one more claim, `g/o`, which names the
volume of the first run: the second run adds a volume and no claim. -/
theorem materializeOnStore_twice (this : ParaVirtProtectedEntityTypeManager)
    (store : GuestStore) (u₁ u₂ g o : GoString) (L : GoMap) (s : PersistentVolumeClaim)
    (d : GoString) (hfresh : u₁ ≠ u₂)
    (hnew₁ : ∀ v ∈ store.volumes, v.Name ≠ str "pvc-" ++ u₁)
    (hnew₂ : ∀ v ∈ store.volumes, v.Name ≠ str "pvc-" ++ u₂)
    (hnoclaim : ∀ c ∈ store.claims, ¬ (c.Namespace = g ∧ c.Name = o)) :
    (materializeOnStore this store u₁ g o L s d).1
        = { volumes := store.volumes ++ [guestVolumeManifest u₁ g o s d]
            claims := store.claims ++ [guestClaimManifest g o L (str "pvc-" ++ u₁) s] } ∧
      (materializeOnStore this (materializeOnStore this store u₁ g o L s d).1 u₂ g o L s d).1
        = { volumes := store.volumes ++
              [guestVolumeManifest u₁ g o s d, guestVolumeManifest u₂ g o s d]
            claims := store.claims ++ [guestClaimManifest g o L (str "pvc-" ++ u₁) s] } ∧
      guestVolumeManifest u₁ g o s d ≠ guestVolumeManifest u₂ g o s d ∧
      (guestVolumeManifest u₁ g o s d).Spec.ClaimRef = some { Namespace := g, Name := o } ∧
      (guestVolumeManifest u₂ g o s d).Spec.ClaimRef = some { Namespace := g, Name := o } := by
  have hname : str "pvc-" ++ u₁ ≠ str "pvc-" ++ u₂ := fun e => hfresh (List.append_cancel_left e)
  have hfirst : (materializeOnStore this store u₁ g o L s d).1
      = { volumes := store.volumes ++ [guestVolumeManifest u₁ g o s d]
          claims := store.claims ++ [guestClaimManifest g o L (str "pvc-" ++ u₁) s] } := by
    rw [materializeOnStore_store,
      GuestStore.createPV_fresh store (guestVolumeManifest u₁ g o s d) hnew₁]
    rw [GuestStore.createPVC_fresh _ g _ hnoclaim]
    rfl
  refine ⟨hfirst, ?_, ?_, rfl, rfl⟩
  · rw [hfirst, materializeOnStore_store]
    have hvol : ∀ v ∈ store.volumes ++ [guestVolumeManifest u₁ g o s d],
        v.Name ≠ (guestVolumeManifest u₂ g o s d).Name := by
      intro v hv
      simp only [List.mem_append, List.mem_singleton] at hv
      rcases hv with hv | hv
      · exact hnew₂ v hv
      · subst hv
        exact hname
    rw [GuestStore.createPV_fresh _ (guestVolumeManifest u₂ g o s d) hvol]
    show (GuestStore.createPVC
        { volumes := store.volumes ++ [guestVolumeManifest u₁ g o s d]
            ++ [guestVolumeManifest u₂ g o s d]
          claims := store.claims ++ [guestClaimManifest g o L (str "pvc-" ++ u₁) s] }
        g (guestClaimManifest g o L (str "pvc-" ++ u₂) s)).1 = _
    rw [GuestStore.createPVC_exists _ g (guestClaimManifest g o L (str "pvc-" ++ u₂) s)
      (guestClaimManifest g o L (str "pvc-" ++ u₁) s) (by simp) ⟨rfl, rfl⟩]
    simp
  · intro e
    exact hname (congrArg PersistentVolume.Name e)

/-- C16, witness: two runs for the origin claim `gc-ns/data-pvc` on the empty
store, with the UUIDs of the example run. -/
theorem materializeOnStore_twice_witness :
    (materializeOnStore
        (cooperativeManager (originClaim (some (str "gc-sc"))) ClonePhase.Completed)
        (materializeOnStore
          (cooperativeManager (originClaim (some (str "gc-sc"))) ClonePhase.Completed)
          emptyGuestStore (str "15d0ac8f-418f-4e5d-99c1-b127263e2058") (str "gc-ns")
          (str "data-pvc") [(str "app", str "x")] boundClaimExample CSIDriverName).1
        (str "0f4e37de-038d-11eb-adc1-0242ac120002") (str "gc-ns") (str "data-pvc")
        [(str "app", str "x")] boundClaimExample CSIDriverName).1
      = { volumes := emptyGuestStore.volumes ++
            [guestVolumeManifest (str "15d0ac8f-418f-4e5d-99c1-b127263e2058") (str "gc-ns")
                (str "data-pvc") boundClaimExample CSIDriverName,
              guestVolumeManifest (str "0f4e37de-038d-11eb-adc1-0242ac120002") (str "gc-ns")
                (str "data-pvc") boundClaimExample CSIDriverName]
          claims := emptyGuestStore.claims ++
            [guestClaimManifest (str "gc-ns") (str "data-pvc") [(str "app", str "x")]
              (str "pvc-" ++ str "15d0ac8f-418f-4e5d-99c1-b127263e2058") boundClaimExample] } :=
  (materializeOnStore_twice
    (cooperativeManager (originClaim (some (str "gc-sc"))) ClonePhase.Completed)
    emptyGuestStore (str "15d0ac8f-418f-4e5d-99c1-b127263e2058")
    (str "0f4e37de-038d-11eb-adc1-0242ac120002") (str "gc-ns") (str "data-pvc")
    [(str "app", str "x")] boundClaimExample CSIDriverName (by decide) (by decide) (by decide)
    (by decide)).2.1

/-- C16, counterexample to the claim as stated: after two runs for the origin
claim `gc-ns/data-pvc` on the empty store, each with its own UUID, the store
holds two volumes for the clone, not one, and one claim. -/
theorem materializeOnStore_twice_counterexample :
    (materializeOnStore
        (cooperativeManager (originClaim (some (str "gc-sc"))) ClonePhase.Completed)
        (materializeOnStore
          (cooperativeManager (originClaim (some (str "gc-sc"))) ClonePhase.Completed)
          emptyGuestStore (str "15d0ac8f-418f-4e5d-99c1-b127263e2058") (str "gc-ns")
          (str "data-pvc") [(str "app", str "x")] boundClaimExample CSIDriverName).1
        (str "0f4e37de-038d-11eb-adc1-0242ac120002") (str "gc-ns") (str "data-pvc")
        [(str "app", str "x")] boundClaimExample CSIDriverName).1.volumes.length = 2 ∧
      (materializeOnStore
        (cooperativeManager (originClaim (some (str "gc-sc"))) ClonePhase.Completed)
        (materializeOnStore
          (cooperativeManager (originClaim (some (str "gc-sc"))) ClonePhase.Completed)
          emptyGuestStore (str "15d0ac8f-418f-4e5d-99c1-b127263e2058") (str "gc-ns")
          (str "data-pvc") [(str "app", str "x")] boundClaimExample CSIDriverName).1
        (str "0f4e37de-038d-11eb-adc1-0242ac120002") (str "gc-ns") (str "data-pvc")
        [(str "app", str "x")] boundClaimExample CSIDriverName).1.claims.length = 1 := by
  decide

/-! ## C17: the calls issued for a manifest without storage class name -/

/-- On a manifest that unmarshals to a claim without storage class name,
`getSuperPVCandGuestPVCName` panics or returns no target manifest. -/
theorem getSuperPVCandGuestPVCName_no_storage_class_cases
    (this : ParaVirtProtectedEntityTypeManager) (metadata : List Byte)
    (hU : (this.ext.Unmarshal metadata).2 = none)
    (hS : (this.ext.Unmarshal metadata).1.Spec.StorageClassName = none) :
    (∃ m, getSuperPVCandGuestPVCName this metadata = Outcome.panic m) ∨
      ∃ err, getSuperPVCandGuestPVCName this metadata
        = Outcome.returned (none, [], [], [], err) := by
  unfold getSuperPVCandGuestPVCName
  simp only [hU, ne_eq, not_true_eq_false, if_false]
  by_cases hN : this.ext.pvcUUID.2 = none
  · by_cases hlen : (this.ext.Unmarshal metadata).1.Name.length < 4
    · exact Or.inl ⟨"slice bounds out of range", by simp [hN, hlen]⟩
    · exact Or.inr ⟨none, by simp [hN, hlen, hS, errors.Wrap]⟩
  · exact Or.inr ⟨errors.Wrap this.ext.pvcUUID.2
      "could not generate PVC name in the Supervisor Cluster for Guest Cluster PVC",
      by simp [hN]⟩

/-- C17 (as amended): for every invocation of `CreateFromMetadata` whose
metadata unmarshals to a claim without storage class name, and for every
`backupRepositoryName`, the calls issued before the operation ends are the
repository lookup alone, when the name is neither empty nor the sentinel, and
no call at all otherwise: no clone request, no get, no create and no status
update is issued; and the operation does not return a protected entity. -/
theorem CreateFromMetadata_missing_storage_class_calls
    (this : ParaVirtProtectedEntityTypeManager) (metadata : List Byte)
    (src : ProtectedEntityID) (cns cname b : GoString)
    (hU : (this.ext.Unmarshal metadata).2 = none)
    (hS : (this.ext.Unmarshal metadata).1.Spec.StorageClassName = none) :
    (CreateFromMetadata this metadata src cns cname b).1
        = (if b ≠ [] ∧ b ≠ WithoutBackupRepository then [Call.getBackupRepository b] else []) ∧
      ∀ pe, (CreateFromMetadata this metadata src cns cname b).2
        ≠ Outcome.returned (some pe, none) := by
  rw [← resolveBackupRepositoryName_calls this b]
  unfold CreateFromMetadata
  dsimp only
  split
  · exact ⟨rfl, fun pe h => by simp at h⟩
  · rcases getSuperPVCandGuestPVCName_no_storage_class_cases this metadata hU hS with
      ⟨m, hm⟩ | ⟨err, herr⟩
    · rw [hm]
      exact ⟨rfl, fun pe h => by simp at h⟩
    · rw [herr]
      cases err with
      | none => exact ⟨rfl, fun pe h => by simp at h⟩
      | some e => exact ⟨rfl, fun pe h => by simp at h⟩

/-- C17, witness: the origin claim `gc-ns/data-pvc` without storage class name
and the repository name `br-1`: the lookup of `br-1` is the only call. -/
theorem CreateFromMetadata_missing_storage_class_calls_witness :
    (CreateFromMetadata (cooperativeManager (originClaim none) ClonePhase.Completed) []
        sourceSnapshotExample (str "gc-ns") (str "clone-req") (str "br-1")).1
        = (if str "br-1" ≠ [] ∧ str "br-1" ≠ WithoutBackupRepository then
            [Call.getBackupRepository (str "br-1")] else []) ∧
      ∀ pe, (CreateFromMetadata (cooperativeManager (originClaim none) ClonePhase.Completed) []
        sourceSnapshotExample (str "gc-ns") (str "clone-req") (str "br-1")).2
        ≠ Outcome.returned (some pe, none) :=
  CreateFromMetadata_missing_storage_class_calls
    (cooperativeManager (originClaim none) ClonePhase.Completed) [] sourceSnapshotExample
    (str "gc-ns") (str "clone-req") (str "br-1") rfl rfl

/-- C17, counterexample to the claim as stated: for the origin claim
`gc-ns/data-pvc` without storage class name and the repository name `br-1`, which
is not empty and not the sentinel, the trace of calls is not empty, it holds the
repository lookup; and the operation does not return an error: it ends in the
dereference of the `nil` claim. -/
theorem CreateFromMetadata_missing_storage_class_counterexample :
    (originClaim none).Spec.StorageClassName = none ∧
      CreateFromMetadata (cooperativeManager (originClaim none) ClonePhase.Completed) []
          sourceSnapshotExample (str "gc-ns") (str "clone-req") (str "br-1")
        = ([Call.getBackupRepository (str "br-1")],
            Outcome.panic "nil pointer dereference") := by
  decide

/-! ## C18: origin names of fewer than four bytes -/

/-- On a manifest that unmarshals to a claim whose name has fewer than four
bytes, when the UUID is drawn, `getSuperPVCandGuestPVCName` panics at the slice
expression `svcPVC.Name[0:4]`, with or without storage class name. -/
theorem getSuperPVCandGuestPVCName_short_name (this : ParaVirtProtectedEntityTypeManager)
    (metadata : List Byte) (hU : (this.ext.Unmarshal metadata).2 = none)
    (hN : this.ext.pvcUUID.2 = none)
    (hlen : (this.ext.Unmarshal metadata).1.Name.length < 4) :
    getSuperPVCandGuestPVCName this metadata = Outcome.panic "slice bounds out of range" := by
  simp [getSuperPVCandGuestPVCName, hU, hN, hlen]

/-- C18, the code at the failing inputs: for the claims named `abc`, `a` and
the empty name, each with the storage class `gc-sc`,
`getSuperPVCandGuestPVCName` returns no target manifest: the slice expression
`svcPVC.Name[0:4]` is out of range and panics. -/
theorem getSuperPVCandGuestPVCName_short_name_panics :
    (claimNamed (str "abc")).Spec.StorageClassName = some (str "gc-sc") ∧
      getSuperPVCandGuestPVCName
          (cooperativeManager (claimNamed (str "abc")) ClonePhase.Completed) []
        = Outcome.panic "slice bounds out of range" ∧
      getSuperPVCandGuestPVCName
          (cooperativeManager (claimNamed (str "a")) ClonePhase.Completed) []
        = Outcome.panic "slice bounds out of range" ∧
      getSuperPVCandGuestPVCName
          (cooperativeManager (claimNamed []) ClonePhase.Completed) []
        = Outcome.panic "slice bounds out of range" :=
  ⟨rfl, getSuperPVCandGuestPVCName_short_name _ _ rfl rfl (by decide),
    getSuperPVCandGuestPVCName_short_name _ _ rfl rfl (by decide),
    getSuperPVCandGuestPVCName_short_name _ _ rfl rfl (by decide)⟩

/-! ## C19: termination of `decodeSnapshotID` -/

/-- A string is its components with a colon in front of each component but the
first. -/
theorem splitParts_join (s : List Byte) :
    s = (splitParts colon s).1 ++ ((splitParts colon s).2.map (fun p => colon :: p)).flatten := by
  induction s with
  | nil => rfl
  | cons c cs ih =>
      by_cases hc : c = colon
      · simp only [splitParts, hc, if_true, List.map_cons, List.flatten_cons, List.nil_append,
          List.cons_append]
        rw [← ih]
      · simp only [splitParts, hc, if_false, List.cons_append]
        rw [← ih]

/-- A snapshot id delivered by the parser is a proper suffix of the string that
was parsed. -/
theorem NewProtectedEntityIDFromString_snapshot_suffix (b : GoString) (pe : ProtectedEntityID)
    (h : NewProtectedEntityIDFromString b = (pe, none)) (hsnap : pe.HasSnapshot = true) :
    ∃ front, front ≠ [] ∧ b = front ++ pe.snapshotID.id := by
  have hjoin := splitParts_join b
  unfold NewProtectedEntityIDFromString strings.Split at h
  generalize (splitParts colon b).1 = hd at h hjoin
  generalize (splitParts colon b).2 = tl at h hjoin
  match tl, h, hjoin with
  | [], h, _ => simp at h
  | [i], h, _ =>
      simp only [Prod.mk.injEq, and_true] at h
      subst h
      simp [ProtectedEntityID.HasSnapshot] at hsnap
  | [i, sn], h, hjoin =>
      simp only [Prod.mk.injEq, and_true] at h
      subst h
      refine ⟨hd ++ colon :: i ++ [colon], by simp, ?_⟩
      simp only [NewProtectedEntitySnapshotID]
      rw [hjoin]
      simp
  | i :: sn :: x :: more, h, _ =>
      simp only [Prod.mk.injEq, and_true] at h
      subst h
      simp [ProtectedEntityID.HasSnapshot] at hsnap

/-- With a bound larger than the input length the rounds are counted, and they
are at most the input length, or one for the empty input. -/
theorem decodeRoundsFuel_bound : ∀ (n : Nat) (s : ProtectedEntitySnapshotID),
    s.String.length < n → ∃ k, decodeRoundsFuel n s = some k ∧ k ≤ max 1 s.String.length
  | 0, _, hn => absurd hn (Nat.not_lt_zero _)
  | n + 1, s, hn => by
      simp only [decodeRoundsFuel]
      split
      · exact ⟨1, rfl, Nat.le_max_left _ _⟩
      · rename_i b hd
        split
        · exact ⟨1, rfl, Nat.le_max_left _ _⟩
        · rename_i pe hp
          split
          · rename_i hc
            have hsnap : pe.HasSnapshot = true := by
              simp only [Bool.and_eq_true] at hc
              exact hc.1
            have hlt := nested_snapshot_shorter s b pe hd hp hsnap
            obtain ⟨k, hk, hle⟩ := decodeRoundsFuel_bound n pe.GetSnapshotID (by omega)
            refine ⟨k + 1, by simp [hk], ?_⟩
            have hpos : 1 ≤ pe.GetSnapshotID.String.length := by
              simp only [ProtectedEntityID.HasSnapshot, bne_iff_ne, ne_eq] at hsnap
              exact List.length_pos.mpr hsnap
            rw [Nat.max_eq_right hpos] at hle
            exact Nat.le_trans (by omega) (Nat.le_max_right 1 s.String.length)
          · exact ⟨1, rfl, Nat.le_max_left _ _⟩

/-- C19 (as amended): `decodeSnapshotID` terminates on every input string
without a depth counter. Every recursive call is made on a snapshot id that is a
proper suffix of the base64-decoded text of the current input and is strictly
shorter than the current input; the function returns on every input, with the
same result for every bound on nested calls above the input length; and the
number of decode rounds is at most the input length, or one when the input is
empty. -/
theorem decodeSnapshotID_terminates (s : ProtectedEntitySnapshotID) :
    (∀ (b : List Byte) (pe : ProtectedEntityID), DecodeString s.String = some b →
        NewProtectedEntityIDFromString b = (pe, none) →
        (pe.HasSnapshot && pe.GetPeType != str "ivd") = true →
        (∃ front, front ≠ [] ∧ b = front ++ pe.GetSnapshotID.String) ∧
          pe.GetSnapshotID.String.length < s.String.length ∧
          decodeSnapshotID s = decodeSnapshotID pe.GetSnapshotID) ∧
      (∃ r, decodeSnapshotID s = Outcome.returned r) ∧
      (∀ fuel, s.String.length < fuel → decodeSnapshotIDFuel fuel s = decodeSnapshotID s) ∧
      (∃ k, decodeRounds s = some k ∧ k ≤ max 1 s.String.length) := by
  refine ⟨?_, decodeSnapshotID_returns s, fun fuel h => decodeSnapshotIDFuel_enough fuel s h,
    decodeRoundsFuel_bound _ s (Nat.lt_succ_self _)⟩
  intro b pe hd hp hc
  have hsnap : pe.HasSnapshot = true := by
    simp only [Bool.and_eq_true] at hc
    exact hc.1
  exact ⟨NewProtectedEntityIDFromString_snapshot_suffix b pe hp hsnap,
    nested_snapshot_shorter s b pe hd hp hsnap, decodeSnapshotID_nested s b pe hd hp hc⟩

/-- C19, counterexample to the claim as stated: on the empty input
`decodeSnapshotID` makes one decode round (the empty string decodes to the empty
text, which is no identifier), and the input length is zero. -/
theorem decodeSnapshotID_rounds_counterexample :
    decodeRounds { id := [] } = some 1 ∧
      (ProtectedEntitySnapshotID.mk []).String.length = 0 ∧
      decodeSnapshotID { id := [] }
        = Outcome.returned ([], some (GoError.wrapped
            "Could not translate decoded snapshotID into pe-id" (GoError.invalidPEID []))) := by
  decide

/-! ## C20: `decodeSnapshotID` on its own results -/

/-- No component of a split string holds the separator. -/
theorem splitParts_no_colon (s : List Byte) :
    colon ∉ (splitParts colon s).1 ∧ ∀ p ∈ (splitParts colon s).2, colon ∉ p := by
  induction s with
  | nil => simp [splitParts]
  | cons c cs ih =>
      by_cases hc : c = colon
      · simp only [splitParts, hc, if_true, List.not_mem_nil, not_false_eq_true,
          List.mem_cons, true_and]
        intro p hp
        rcases hp with hp | hp
        · subst hp
          exact ih.1
        · exact ih.2 p hp
      · simp only [splitParts, hc, if_false, List.mem_cons, not_or]
        exact ⟨⟨fun e => hc e.symm, ih.1⟩, ih.2⟩

/-- The parts of a parsed identifier hold no colon. -/
theorem NewProtectedEntityIDFromString_no_colon (b : GoString) (pe : ProtectedEntityID)
    (h : NewProtectedEntityIDFromString b = (pe, none)) :
    colon ∉ pe.peType ∧ colon ∉ pe.id ∧ colon ∉ pe.snapshotID.id := by
  have hparts := splitParts_no_colon b
  unfold NewProtectedEntityIDFromString strings.Split at h
  generalize (splitParts colon b).1 = hd at h hparts
  generalize (splitParts colon b).2 = tl at h hparts
  match tl, h, hparts with
  | [], h, _ => simp at h
  | [i], h, hparts =>
      simp only [Prod.mk.injEq, and_true] at h
      subst h
      exact ⟨hparts.1, hparts.2 i (by simp), by simp⟩
  | [i, sn], h, hparts =>
      simp only [Prod.mk.injEq, and_true] at h
      subst h
      exact ⟨hparts.1, hparts.2 i (by simp), hparts.2 sn (by simp)⟩
  | i :: sn :: x :: more, h, hparts =>
      simp only [Prod.mk.injEq, and_true] at h
      subst h
      exact ⟨hparts.1, hparts.2 i (by simp), by simp⟩

/-- A successful result of `decodeSnapshotID` is the encoded canonical string of
a parsed identifier on which the recursion stops. -/
theorem decodeSnapshotIDFuel_success : ∀ (n : Nat) (x : ProtectedEntitySnapshotID)
    (y : GoString), decodeSnapshotIDFuel n x = Outcome.returned (y, none) →
    ∃ pe : ProtectedEntityID, y = EncodeToString pe.String ∧
      (colon ∉ pe.peType ∧ colon ∉ pe.id ∧ colon ∉ pe.snapshotID.id) ∧
      (pe.HasSnapshot && pe.GetPeType != str "ivd") = false
  | 0, _, _, h => by simp [decodeSnapshotIDFuel] at h
  | n + 1, x, y, h => by
      simp only [decodeSnapshotIDFuel] at h
      split at h
      · simp [errors.Wrap] at h
      · split at h
        · simp [errors.Wrap] at h
        · rename_i pe hp
          split at h
          · exact decodeSnapshotIDFuel_success n _ y h
          · rename_i hc
            simp only [Outcome.returned.injEq, Prod.mk.injEq, and_true] at h
            exact ⟨pe, h.symm, NewProtectedEntityIDFromString_no_colon _ pe hp, by simpa using hc⟩

/-- C20: `decodeSnapshotID` is idempotent on its successful results. For every
input `x` on which `decodeSnapshotID` returns `y` without error, `y` is the raw
standard base64 of the canonical string of an identifier that has the provider
type `"ivd"` or carries no snapshot id, and `decodeSnapshotID` on `y` succeeds
and returns `y`. -/
theorem decodeSnapshotID_idempotent (x : ProtectedEntitySnapshotID) (y : GoString)
    (h : decodeSnapshotID x = Outcome.returned (y, none)) :
    ∃ id : ProtectedEntityID, y = EncodeToString id.String ∧
      (id.peType = str "ivd" ∨ id.HasSnapshot = false) ∧
      decodeSnapshotID { id := y } = Outcome.returned (y, none) := by
  obtain ⟨pe, hy, ⟨ht, hi, hs⟩, hc⟩ := decodeSnapshotIDFuel_success _ x y h
  refine ⟨pe, hy, ?_, ?_⟩
  · simp only [Bool.and_eq_false_iff, ProtectedEntityID.GetPeType, bne_eq_false_iff_eq] at hc
    rcases hc with hc | hc
    · exact Or.inr hc
    · exact Or.inl (by simpa using hc)
  · obtain ⟨hd, hp⟩ := decode_parse_canonical pe ht hi hs
    rw [hy]
    exact decodeSnapshotID_terminal _ _ _ hd hp hc

/-- C20, witness: on the encoded `paravirt-pv:pvc-1:<encoded ivd:fcd-1:snap-1>`
the result is the encoded `ivd:fcd-1:snap-1`, on which `decodeSnapshotID`
returns the same string. -/
theorem decodeSnapshotID_idempotent_witness :
    decodeSnapshotID { id := EncodeToString paravirtExample.String }
        = Outcome.returned (EncodeToString ivdExample.String, none) ∧
      ∃ id : ProtectedEntityID, EncodeToString ivdExample.String = EncodeToString id.String ∧
        (id.peType = str "ivd" ∨ id.HasSnapshot = false) ∧
        decodeSnapshotID { id := EncodeToString ivdExample.String }
          = Outcome.returned (EncodeToString ivdExample.String, none) :=
  ⟨by decide,
    decodeSnapshotID_idempotent { id := EncodeToString paravirtExample.String }
      (EncodeToString ivdExample.String) (by decide)⟩

/-! ## C4: the gate on the phase of the supervisor-side clone -/

/-- The guest materialization starts with the fetch of the supervisor claim. -/
theorem materializeAndReport_first_call (this : ParaVirtProtectedEntityTypeManager)
    (svcPVCName g o : GoString) (L : GoMap) (cns cname : GoString)
    (svcClone : CloneFromSnapshot) :
    Call.svcGetPVC this.svcNamespace svcPVCName
      ∈ (materializeAndReport this svcPVCName g o L cns cname svcClone).1 := by
  unfold materializeAndReport
  dsimp only
  repeat' split
  all_goals simp

/-- C4: terminal-phase gating in `CreateFromMetadata`. When the orchestration has
reached the clone request (repository name resolved, manifest translated and
marshalled, snapshot id converted) and the clone request, which waits for the
phases `Completed`, `Failed` and `Canceled`, has returned without error an
object in phase `p`, then: the orchestration proceeds to guest materialization
(it fetches the supervisor claim) if and only if `p` is `Completed`, and for
`Completed` its calls and its outcome are those of the guest materialization
after the clone request; for `Failed` and for `Canceled` it returns an error
and issues no further call; whenever it returns success, `p` is `Completed`;
and it does not return success for the non-terminal phases `Pending` and
`InProgress`. -/
theorem CreateFromMetadata_phase_gate (this : ParaVirtProtectedEntityTypeManager)
    (metadata : List Byte) (sourceSnapshotID : ProtectedEntityID)
    (cloneFromSnapshotNamespace cloneFromSnapshotName backupRepositoryName : GoString)
    (calls₀ : List Call) (svcRepositoryName : GoString) (svcPVC : PersistentVolumeClaim)
    (gcPVCNamespace gcPVCName : GoString) (gcPVCLabels : GoMap) (svcPVCData : List Byte)
    (newSnapshotID : GoString) (svcClone : CloneFromSnapshot)
    (hrepo : resolveBackupRepositoryName this backupRepositoryName
      = (calls₀, (none, svcRepositoryName)))
    (htranslate : getSuperPVCandGuestPVCName this metadata
      = Outcome.returned (some svcPVC, gcPVCNamespace, gcPVCName, gcPVCLabels, none))
    (hmarshal : this.ext.Marshal svcPVC = (svcPVCData, none))
    (hconvert : convertSnapshotID sourceSnapshotID svcPVC.Namespace svcPVC.Name
      = Outcome.returned (newSnapshotID, none))
    (hclone : this.ext.CloneFromSnapshopRef
        (cloneRequest this newSnapshotID svcPVCData [] (str "PersistentVolumeClaim")
          svcRepositoryName)
      = (svcClone, none))
    (hwait : WaitContract
      (cloneRequest this newSnapshotID svcPVCData [] (str "PersistentVolumeClaim")
        svcRepositoryName)
      (this.ext.CloneFromSnapshopRef
        (cloneRequest this newSnapshotID svcPVCData [] (str "PersistentVolumeClaim")
          svcRepositoryName))) :
    (Call.svcGetPVC this.svcNamespace svcPVC.Name
          ∈ (CreateFromMetadata this metadata sourceSnapshotID cloneFromSnapshotNamespace
              cloneFromSnapshotName backupRepositoryName).1
        ↔ svcClone.Status.Phase = ClonePhase.Completed) ∧
      (svcClone.Status.Phase = ClonePhase.Completed →
        CreateFromMetadata this metadata sourceSnapshotID cloneFromSnapshotNamespace
            cloneFromSnapshotName backupRepositoryName
          = (calls₀ ++ [Call.cloneFromSnapshotRef (cloneRequest this newSnapshotID svcPVCData []
                (str "PersistentVolumeClaim") svcRepositoryName)]
              ++ (materializeAndReport this svcPVC.Name gcPVCNamespace gcPVCName gcPVCLabels
                    cloneFromSnapshotNamespace cloneFromSnapshotName svcClone).1,
              (materializeAndReport this svcPVC.Name gcPVCNamespace gcPVCName gcPVCLabels
                    cloneFromSnapshotNamespace cloneFromSnapshotName svcClone).2)) ∧
      (svcClone.Status.Phase = ClonePhase.Failed →
        CreateFromMetadata this metadata sourceSnapshotID cloneFromSnapshotNamespace
            cloneFromSnapshotName backupRepositoryName
          = (calls₀ ++ [Call.cloneFromSnapshotRef (cloneRequest this newSnapshotID svcPVCData []
                (str "PersistentVolumeClaim") svcRepositoryName)],
              Outcome.returned (none, some (GoError.errorf
                "CloneFromSnapshot failed in the Supervisor Cluster")))) ∧
      (svcClone.Status.Phase = ClonePhase.Canceled →
        CreateFromMetadata this metadata sourceSnapshotID cloneFromSnapshotNamespace
            cloneFromSnapshotName backupRepositoryName
          = (calls₀ ++ [Call.cloneFromSnapshotRef (cloneRequest this newSnapshotID svcPVCData []
                (str "PersistentVolumeClaim") svcRepositoryName)],
              Outcome.returned (none, some (GoError.errorf
                "CloneFromSnapshot is canceled in the Supervisor Cluster")))) ∧
      (∀ pe, (CreateFromMetadata this metadata sourceSnapshotID cloneFromSnapshotNamespace
          cloneFromSnapshotName backupRepositoryName).2 = Outcome.returned (pe, none) →
        svcClone.Status.Phase = ClonePhase.Completed) ∧
      ((svcClone.Status.Phase = ClonePhase.Pending ∨
          svcClone.Status.Phase = ClonePhase.InProgress) →
        ∀ pe, (CreateFromMetadata this metadata sourceSnapshotID cloneFromSnapshotNamespace
          cloneFromSnapshotName backupRepositoryName).2 ≠ Outcome.returned (pe, none)) := by
  obtain ⟨hFailed, hCanceled, hOther⟩ := CreateFromMetadata_after_clone this metadata
    sourceSnapshotID cloneFromSnapshotNamespace cloneFromSnapshotName backupRepositoryName
    calls₀ svcRepositoryName svcPVC gcPVCNamespace gcPVCName gcPVCLabels svcPVCData
    newSnapshotID svcClone hrepo htranslate hmarshal hconvert hclone
  have hphase : svcClone.Status.Phase = ClonePhase.Completed ∨
      svcClone.Status.Phase = ClonePhase.Failed ∨
      svcClone.Status.Phase = ClonePhase.Canceled := by
    have h := hwait (by rw [hclone])
    rw [hclone] at h
    simpa [cloneRequest] using h
  have hcalls₀ : ∀ call ∈ calls₀, call = Call.getBackupRepository backupRepositoryName := by
    intro call hcall
    have h := resolveBackupRepositoryName_calls this backupRepositoryName
    rw [hrepo] at h
    simp only at h
    rw [h] at hcall
    split at hcall <;> simp at hcall
    exact hcall
  have hnone : Call.svcGetPVC this.svcNamespace svcPVC.Name
      ∉ calls₀ ++ [Call.cloneFromSnapshotRef (cloneRequest this newSnapshotID svcPVCData []
          (str "PersistentVolumeClaim") svcRepositoryName)] := by
    intro hmem
    simp only [List.mem_append, List.mem_singleton] at hmem
    rcases hmem with hmem | hmem
    · have := hcalls₀ _ hmem
      simp at this
    · simp at hmem
  have hCompleted : svcClone.Status.Phase = ClonePhase.Completed →
      CreateFromMetadata this metadata sourceSnapshotID cloneFromSnapshotNamespace
          cloneFromSnapshotName backupRepositoryName
        = (calls₀ ++ [Call.cloneFromSnapshotRef (cloneRequest this newSnapshotID svcPVCData []
              (str "PersistentVolumeClaim") svcRepositoryName)]
            ++ (materializeAndReport this svcPVC.Name gcPVCNamespace gcPVCName gcPVCLabels
                  cloneFromSnapshotNamespace cloneFromSnapshotName svcClone).1,
            (materializeAndReport this svcPVC.Name gcPVCNamespace gcPVCName gcPVCLabels
                  cloneFromSnapshotNamespace cloneFromSnapshotName svcClone).2) := by
    intro hp
    exact hOther (by rw [hp]; decide) (by rw [hp]; decide)
  have hSuccess : ∀ pe, (CreateFromMetadata this metadata sourceSnapshotID
      cloneFromSnapshotNamespace cloneFromSnapshotName backupRepositoryName).2
        = Outcome.returned (pe, none) → svcClone.Status.Phase = ClonePhase.Completed := by
    intro pe hsuccess
    rcases hphase with h | h | h
    · exact h
    · rw [hFailed h] at hsuccess
      simp at hsuccess
    · rw [hCanceled h] at hsuccess
      simp at hsuccess
  refine ⟨⟨?_, ?_⟩, hCompleted, hFailed, hCanceled, hSuccess, ?_⟩
  · intro hmem
    rcases hphase with h | h | h
    · exact h
    · rw [hFailed h] at hmem
      exact absurd hmem hnone
    · rw [hCanceled h] at hmem
      exact absurd hmem hnone
  · intro hp
    rw [hCompleted hp]
    exact List.mem_append_right _ (materializeAndReport_first_call this svcPVC.Name
      gcPVCNamespace gcPVCName gcPVCLabels cloneFromSnapshotNamespace cloneFromSnapshotName
      svcClone)
  · intro hp pe hsuccess
    have h := hSuccess pe hsuccess
    rcases hp with hp | hp <;> rw [hp] at h <;> exact absurd h (by decide)

/-- C4, witness: in the run where every external call succeeds and the clone
request returns phase `Completed`, one of the phases it waits for, the
orchestration goes on to guest materialization and returns the protected entity
`pvc:gc-ns/data-pvc`. -/
theorem CreateFromMetadata_phase_gate_witness :
    WaitContract
        (cloneRequest (cooperativeManager (originClaim (some (str "gc-sc")))
          ClonePhase.Completed) newSnapshotIDExample (str "marshalled-claim") []
          (str "PersistentVolumeClaim") (str "svc-br-1"))
        ((cooperativeManager (originClaim (some (str "gc-sc")))
          ClonePhase.Completed).ext.CloneFromSnapshopRef
          (cloneRequest (cooperativeManager (originClaim (some (str "gc-sc")))
            ClonePhase.Completed) newSnapshotIDExample (str "marshalled-claim") []
            (str "PersistentVolumeClaim") (str "svc-br-1"))) ∧
      (svcCloneExample ClonePhase.Completed).Status.Phase = ClonePhase.Completed ∧
      CreateFromMetadata
          (cooperativeManager (originClaim (some (str "gc-sc"))) ClonePhase.Completed)
          [] sourceSnapshotExample (str "gc-ns") (str "clone-req") (str "br-1")
        = ([Call.getBackupRepository (str "br-1")]
            ++ [Call.cloneFromSnapshotRef
                (cloneRequest (cooperativeManager (originClaim (some (str "gc-sc")))
                  ClonePhase.Completed) newSnapshotIDExample (str "marshalled-claim") []
                  (str "PersistentVolumeClaim") (str "svc-br-1"))]
            ++ (materializeAndReport
                (cooperativeManager (originClaim (some (str "gc-sc"))) ClonePhase.Completed)
                targetClaimExample.Name (str "gc-ns") (str "data-pvc") [(str "app", str "x")]
                (str "gc-ns") (str "clone-req") (svcCloneExample ClonePhase.Completed)).1,
            (materializeAndReport
                (cooperativeManager (originClaim (some (str "gc-sc"))) ClonePhase.Completed)
                targetClaimExample.Name (str "gc-ns") (str "data-pvc") [(str "app", str "x")]
                (str "gc-ns") (str "clone-req") (svcCloneExample ClonePhase.Completed)).2) ∧
      (materializeAndReport
          (cooperativeManager (originClaim (some (str "gc-sc"))) ClonePhase.Completed)
          targetClaimExample.Name (str "gc-ns") (str "data-pvc") [(str "app", str "x")]
          (str "gc-ns") (str "clone-req") (svcCloneExample ClonePhase.Completed)).2
        = Outcome.returned
            (some { id := NewProtectedEntityIDFromPVCName (str "gc-ns") (str "data-pvc") },
              none) :=
  ⟨by decide, rfl,
    (CreateFromMetadata_phase_gate
      (cooperativeManager (originClaim (some (str "gc-sc"))) ClonePhase.Completed)
      [] sourceSnapshotExample (str "gc-ns") (str "clone-req") (str "br-1")
      [Call.getBackupRepository (str "br-1")] (str "svc-br-1") targetClaimExample
      (str "gc-ns") (str "data-pvc") [(str "app", str "x")] (str "marshalled-claim")
      newSnapshotIDExample (svcCloneExample ClonePhase.Completed)
      (by decide) (by decide) (by decide) (by decide) (by decide) (by decide)).2.1 rfl,
    by decide⟩

/-! ## C10: the binding of the guest claim to the guest volume -/

/-- C10, the code at the failing input: the guest cluster answers the creation
of the volume `pvc-15d0ac8f-...`, whose claim reference is `gc-ns/data-pvc`, with
`AlreadyExists`. The reply, the zero volume, is assigned to `gcPV` and returned
with the `nil` error, so `CreateFromMetadata` passes the empty name to
`createGuestPVC`: the claim `gc-ns/data-pvc` is submitted with an empty
`spec.volumeName` and does not name the volume. The same happens for a reply
that is any other error. -/
theorem createGuestPVC_binding_lost :
    (createGuestPV createAlreadyExistsManager (str "gc-ns") (str "data-pvc") boundClaimExample
          CSIDriverName)
        = ([Call.gcCreatePV (guestVolumeManifest (str "15d0ac8f-418f-4e5d-99c1-b127263e2058")
              (str "gc-ns") (str "data-pvc") boundClaimExample CSIDriverName)],
            (some zeroPersistentVolume, none)) ∧
      (guestVolumeManifest (str "15d0ac8f-418f-4e5d-99c1-b127263e2058") (str "gc-ns")
          (str "data-pvc") boundClaimExample CSIDriverName).Spec.ClaimRef
        = some { Namespace := str "gc-ns", Name := str "data-pvc" } ∧
      Call.gcCreatePV (guestVolumeManifest (str "15d0ac8f-418f-4e5d-99c1-b127263e2058")
          (str "gc-ns") (str "data-pvc") boundClaimExample CSIDriverName) ∈
        (CreateFromMetadata createAlreadyExistsManager [] sourceSnapshotExample (str "gc-ns")
          (str "clone-req") (str "br-1")).1 ∧
      Call.gcCreatePVC (str "gc-ns")
          (guestClaimManifest (str "gc-ns") (str "data-pvc") [(str "app", str "x")] []
            boundClaimExample) ∈
        (CreateFromMetadata createAlreadyExistsManager [] sourceSnapshotExample (str "gc-ns")
          (str "clone-req") (str "br-1")).1 ∧
      (guestClaimManifest (str "gc-ns") (str "data-pvc") [(str "app", str "x")] []
          boundClaimExample).Spec.VolumeName
        ≠ (guestVolumeManifest (str "15d0ac8f-418f-4e5d-99c1-b127263e2058") (str "gc-ns")
            (str "data-pvc") boundClaimExample CSIDriverName).Name ∧
      Call.gcCreatePVC (str "gc-ns")
          (guestClaimManifest (str "gc-ns") (str "data-pvc") [(str "app", str "x")] []
            boundClaimExample) ∈
        (CreateFromMetadata createRefusedManager [] sourceSnapshotExample (str "gc-ns")
          (str "clone-req") (str "br-1")).1 := by
  decide

end Paravirt
